import Mathlib

/-!
Verification development for the EcoRoofManager module (green-roof model).

The module couples three parts, embedded here over exact rationals:

* `UpdateSoilProps` — the two-reservoir soil-moisture transport model
  (near-surface layer and root zone) and the moisture-dependent soil
  thermal-property write-back (EcoRoofManager.cc, lines 1500-1932).
* `CalcEcoRoof` — Variant A, the lumped FASST solver with a fixed
  3-iteration damped linearized solve (lines 989-1498).
* `GreenRoof_with_PlantCoverage` — Variant B, the plant-coverage-aware
  three-surface solver with Newton iteration and a bisection fallback
  (lines 92-792), together with the convective-coefficient functions
  `h_conv` and `h_conv_bare` (lines 797-911).

Machine doubles are modelled by `ℚ` (exact field arithmetic).  The few
transcendental kernels the C++ code calls (`std::pow` with a non-integer
exponent, `std::exp`) are passed in as explicit function parameters
(`rpow`, `expQ`, ...): every claim below is either independent of their
values or is settled at an explicitly chosen instance.  Integer powers
(`pow_2`, `pow_3`, `pow_4`) are exact and are embedded directly.
-/

namespace EcoRoof

/-- Conversion offset between Celsius and Kelvin (DataGlobals KelvinConv). -/
def KelvinConv : ℚ := 273.15

/-- Stefan-Boltzmann constant as used in the source (5.6697e-08 W/m^2K^4). -/
def SigmaSB : ℚ := 0.000000056697

/-! ## UpdateSoilProps: soil moisture transport (lines 1650-1844)

The subroutine's mutable state that the claims speak about: the two
moisture reservoirs and the per-timestep accumulators.  The construction
constants read from the material record are gathered in `SoilConfig`.
-/

/-- Construction-level constants consumed by `UpdateSoilProps`:
moisture bounds, soil thickness, timestep length, the calculation-method
selector, and the precipitation/irrigation schedule inputs. -/
structure SoilConfig where
  MoistureMax : ℚ
  MoistureResidual : ℚ
  SoilThickness : ℚ
  MinutesPerTimeStep : ℚ
  EcoRoofCalculationMethod : ℕ
  rainDesign : Bool
  rainAmount : ℚ
  irrDesign : Bool
  irrSmart : Bool
  irrAmount : ℚ
  irrThreshold : ℚ

/-- Working state threaded through the moisture phase of `UpdateSoilProps`:
the two reservoirs plus the per-timestep accumulator variables. -/
structure MoistWork where
  Moisture : ℚ
  MeanRootMoisture : ℚ
  CurrentRunoff : ℚ
  CurrentET : ℚ
  CurrentPrecipitation : ℚ
  CurrentIrrigation : ℚ

/-- Thickness of the near-surface soil layer (source lines 1624-1628):
6 cm, or half the soil thickness for very thin soils. -/
def TopDepth (c : SoilConfig) : ℚ :=
  if c.SoilThickness > 0.12 then 0.06 else 0.5 * c.SoilThickness

/-- Thickness of the root-zone layer (source line 1643). -/
def RootDepth (c : SoilConfig) : ℚ :=
  c.SoilThickness - TopDepth c

/-- Seconds per timestep (source line 1645). -/
def SecondsPerTimeStep (c : SoilConfig) : ℚ :=
  c.MinutesPerTimeStep * 60

/-- Evaporation extraction stage (source lines 1650-1657): subtract the
soil-surface evaporation from the top layer and the plant extraction from
the root zone, and record the evapotranspiration depth. -/
def evapStage (c : SoilConfig) (Vfluxf Vfluxg : ℚ) (w : MoistWork) : MoistWork :=
  { w with
    CurrentRunoff := 0
    Moisture := w.Moisture - Vfluxg * c.MinutesPerTimeStep * 60 / TopDepth c
    MeanRootMoisture := w.MeanRootMoisture - Vfluxf * c.MinutesPerTimeStep * 60 / RootDepth c
    CurrentET := (Vfluxg + Vfluxf) * c.MinutesPerTimeStep * 60 }

/-- Precipitation stage (source lines 1666-1673): when a rain schedule is
active, the scheduled depth enters the top layer. -/
def precipStage (c : SoilConfig) (w : MoistWork) : MoistWork :=
  if c.rainDesign then
    { w with
      CurrentPrecipitation := c.rainAmount
      Moisture := w.Moisture + c.rainAmount / TopDepth c }
  else { w with CurrentPrecipitation := 0 }

/-- Irrigation stage (source lines 1676-1691): fixed schedule, or smart
schedule that only irrigates below a moisture threshold; the amount enters
the top layer. -/
def irrStage (c : SoilConfig) (w : MoistWork) : MoistWork :=
  let amt : ℚ :=
    if c.irrDesign then c.irrAmount
    else if c.irrSmart ∧ w.Moisture < c.irrThreshold * c.MoistureMax then c.irrAmount
    else 0
  { w with
    CurrentIrrigation := amt
    Moisture := w.Moisture + amt / TopDepth c }

/-- Input-rate cap stage (source lines 1705-1710): combined
precipitation+irrigation beyond 0.5 inch per hour becomes immediate
runoff, withdrawn from the top layer. -/
def capStage (c : SoilConfig) (w : MoistWork) : MoistWork :=
  if w.CurrentIrrigation + w.CurrentPrecipitation >
      0.5 * 0.0254 * c.MinutesPerTimeStep / 60 then
    let ro := w.CurrentIrrigation + w.CurrentPrecipitation -
      0.5 * 0.0254 * c.MinutesPerTimeStep / 60
    { w with
      CurrentRunoff := ro
      Moisture := w.Moisture - ro / TopDepth c }
  else w

/-- Top-layer saturation stage (source lines 1713-1716): excess above the
maximum moisture runs off. -/
def satStage (c : SoilConfig) (w : MoistWork) : MoistWork :=
  if w.Moisture > c.MoistureMax then
    { w with
      CurrentRunoff := w.CurrentRunoff + (w.Moisture - c.MoistureMax) * TopDepth c
      Moisture := c.MoistureMax }
  else w

/-- Moisture-diffusion redistribution, calculation method 1 (source lines
1735-1751): moisture moves toward equalizing the two reservoirs, downward
faster than upward. -/
def diffStage (c : SoilConfig) (w : MoistWork) : MoistWork :=
  if w.Moisture > w.MeanRootMoisture then
    let md0 := min ((c.MoistureMax - w.MeanRootMoisture) * RootDepth c)
      ((w.Moisture - w.MeanRootMoisture) * TopDepth c)
    let md1 := max 0 md0
    let md := md1 * (0.00005 * c.MinutesPerTimeStep * 60)
    { w with
      Moisture := w.Moisture - md / TopDepth c
      MeanRootMoisture := w.MeanRootMoisture + md / RootDepth c }
  else if w.MeanRootMoisture > w.Moisture then
    let md0 := min ((c.MoistureMax - w.Moisture) * TopDepth c)
      ((w.MeanRootMoisture - w.Moisture) * RootDepth c)
    let md1 := max 0 md0
    let md := md1 * (0.00001 * c.MinutesPerTimeStep * 60)
    { w with
      Moisture := w.Moisture + md / TopDepth c
      MeanRootMoisture := w.MeanRootMoisture - md / RootDepth c }
  else w

/-- Empirical Van Genuchten parameter alpha (source line 1549). -/
def alphaVG : ℚ := 23.0

/-- Empirical Van Genuchten parameter n (source line 1550). -/
def nVG : ℚ := 1.27

/-- Empirical Van Genuchten parameter lambda (source line 1551). -/
def lambdaVG : ℚ := 0.5

/-- Saturated soil hydraulic conductivity (source line 1553, m/s). -/
def SoilConductivitySaturation : ℚ := 0.0000005157

/-- Van Genuchten hydraulic conductivity of a layer at relative saturation
rss (source lines 1780 and 1785); rpow stands for std::pow with a
non-integer exponent. -/
def vgConductivity (rpow : ℚ → ℚ → ℚ) (rss : ℚ) : ℚ :=
  SoilConductivitySaturation * rpow rss lambdaVG *
    (1 - rpow (1 - rpow rss (nVG / (nVG - 1))) ((nVG - 1) / nVG)) ^ 2

/-- Van Genuchten capillary potential of a layer at relative saturation
rss (source lines 1781 and 1786). -/
def vgCapillaryPotential (rpow : ℚ → ℚ → ℚ) (rss : ℚ) : ℚ :=
  (-1 / alphaVG) * rpow (rpow (1 / rss) (nVG / (nVG - 1)) - 1) (1 / nVG)

/-- Van Genuchten-Mualem redistribution, calculation method 2 (source
lines 1770-1827): Darcy-like inter-layer flux from layer conductivities
and capillary potentials, saturation/residual clamps on each layer, and a
bottom-boundary drainage term added to the runoff.  The runoff increments
attached to the two saturation clamps are written exactly as in the
source (which reassigns the moisture before reading it for the runoff
term, and uses the top-layer moisture in the root-layer clamp). -/
def vgStage (rpow : ℚ → ℚ → ℚ) (c : SoilConfig) (w : MoistWork) : MoistWork :=
  let rssTop0 := (w.Moisture - c.MoistureResidual) / (c.MoistureMax - c.MoistureResidual)
  let rssTop := if rssTop0 < 0.0001 then 0.0001 else rssTop0
  let kTop := vgConductivity rpow rssTop
  let psiTop := vgCapillaryPotential rpow rssTop
  let rssRoot := (w.MeanRootMoisture - c.MoistureResidual) / (c.MoistureMax - c.MoistureResidual)
  let kRoot := vgConductivity rpow rssRoot
  let psiRoot := vgCapillaryPotential rpow rssRoot
  let kAveTop := (kTop + kRoot) * 0.5
  let m1 := w.Moisture + (SecondsPerTimeStep c / TopDepth c) *
    ((kAveTop * (psiTop - psiRoot) / TopDepth c) - kAveTop)
  let m2 := if m1 ≥ c.MoistureMax then 0.9999 * c.MoistureMax else m1
  let ro1 := if m1 ≥ c.MoistureMax then
    w.CurrentRunoff + (m2 - c.MoistureMax * 0.9999) * TopDepth c
    else w.CurrentRunoff
  let m3 := if m2 ≤ 1.01 * c.MoistureResidual then 1.01 * c.MoistureResidual else m2
  let kAveRoot0 := kRoot
  let kAveRoot := if kAveRoot0 * 3600 ≤ 0.000000233 then 0 else kAveRoot0
  let r1 := w.MeanRootMoisture + (SecondsPerTimeStep c / RootDepth c) *
    ((kAveTop * (psiTop - psiRoot) / RootDepth c) + kAveTop - kAveRoot)
  let r2 := if r1 ≥ c.MoistureMax then 0.9999 * c.MoistureMax else r1
  let ro2 := if r1 ≥ c.MoistureMax then
    ro1 + (m3 - c.MoistureMax * 0.9999) * RootDepth c
    else ro1
  let r3 := if r2 ≤ 1.01 * c.MoistureResidual then 1.01 * c.MoistureResidual else r2
  let ro3 := ro2 + kAveRoot * SecondsPerTimeStep c
  { w with Moisture := m3, MeanRootMoisture := r3, CurrentRunoff := ro3 }

/-- Residual borrowing stage (source lines 1838-1844): a depleted root
zone is refilled to just above the residual value by borrowing from the
top layer, and the top layer itself is floored at the same value. -/
def borrowStage (c : SoilConfig) (w : MoistWork) : MoistWork :=
  if w.MeanRootMoisture ≤ c.MoistureResidual * 1.00001 then
    let m1 := w.Moisture -
      (c.MoistureResidual * 1.00001 - w.MeanRootMoisture) * RootDepth c / TopDepth c
    let m2 := if m1 < c.MoistureResidual * 1.00001 then c.MoistureResidual * 1.00001 else m1
    { w with Moisture := m2, MeanRootMoisture := c.MoistureResidual * 1.00001 }
  else w

/-- Moisture phase of `UpdateSoilProps` (source lines 1650-1844): the
stages in source order.  The Van Genuchten branch is taken exactly when
EcoRoofCalculationMethod is not 1 (source line 1718). -/
def updateMoisture (rpow : ℚ → ℚ → ℚ) (c : SoilConfig) (Vfluxf Vfluxg : ℚ)
    (w : MoistWork) : MoistWork :=
  let w1 := satStage c (capStage c (irrStage c (precipStage c
    (evapStage c Vfluxf Vfluxg w))))
  let w2 := if c.EcoRoofCalculationMethod = 1 then diffStage c w1 else vgStage rpow c w1
  borrowStage c w2

/-! ## UpdateSoilProps: thermal-property write-back (lines 1605-1912) -/

/-- Dry-soil property values captured once from the material record
(source lines 1618-1621); these never change afterwards. -/
structure DryProps where
  DryCond : ℚ
  DryDens : ℚ
  DryAbsorp : ℚ
  DrySpecHeat : ℚ

/-- The mutable thermal-property record: the ground albedo used by the
solvers and the three material-record fields consumed by the external
conduction solver. -/
structure PropState where
  Alphag : ℚ
  matConductivity : ℚ
  matDensity : ℚ
  matSpecHeat : ℚ

/-- Upper rate limit per timestep on property change (source line 1612). -/
def RatioMax (c : SoilConfig) : ℚ := 1 + 0.20 * c.MinutesPerTimeStep / 15

/-- Lower rate limit per timestep on property change (source line 1613). -/
def RatioMin (c : SoilConfig) : ℚ := 1 - 0.20 * c.MinutesPerTimeStep / 15

/-- The two-sided TestRatio clamp as written in the source (e.g. lines
1863-1864): first cap above, then floor below. -/
def clampTestRat (rmin rmax x : ℚ) : ℚ :=
  let y := if x > rmax then rmax else x
  if y < rmin then rmin else y

/-- Thermal-property phase of `UpdateSoilProps` (source lines 1855-1912):
target albedo, density, specific heat and conductivity from the updated
moisture state, each rate-limited against its previous value before being
written back.  expQ stands for std::exp. -/
def updateSoilThermalProps (expQ : ℚ → ℚ) (c : SoilConfig) (d : DryProps)
    (Moisture MeanRootMoisture : ℚ) (p : PropState) : PropState :=
  let soilAbsorp0 := d.DryAbsorp + (0.92 - d.DryAbsorp) *
    (Moisture - c.MoistureResidual) / (c.MoistureMax - c.MoistureResidual)
  let soilAbsorp1 := if soilAbsorp0 > 0.95 then 0.95 else soilAbsorp0
  let soilAbsorp := if soilAbsorp1 < 0.20 then 0.20 else soilAbsorp1
  let alphag := p.Alphag *
    clampTestRat (RatioMin c) (RatioMax c) ((1 - soilAbsorp) / p.Alphag)
  let avgMoisture := (RootDepth c * MeanRootMoisture + TopDepth c * Moisture) / c.SoilThickness
  let soilDensity := d.DryDens + (avgMoisture - c.MoistureResidual) * 990
  let soilSpecHeat := d.DrySpecHeat + 1900 * avgMoisture
  let satRat := (avgMoisture - c.MoistureResidual) / (c.MoistureMax - c.MoistureResidual)
  let soilConductivity := (d.DryCond / 1.15) * (1.45 * expQ (4.411 * satRat)) /
    (1 + 0.45 * expQ (4.411 * satRat))
  let cond := p.matConductivity *
    clampTestRat (RatioMin c) (RatioMax c) (soilConductivity / p.matConductivity)
  let dens := p.matDensity *
    clampTestRat (RatioMin c) (RatioMax c) (soilDensity / p.matDensity)
  let spec := p.matSpecHeat *
    clampTestRat (RatioMin c) (RatioMax c) (soilSpecHeat / p.matSpecHeat)
  { Alphag := alphag, matConductivity := cond, matDensity := dens, matSpecHeat := spec }

/-- One full call of `UpdateSoilProps` (source lines 1500-1932): the
moisture phase followed by the thermal-property phase evaluated at the
updated moisture values. -/
def UpdateSoilProps (rpow : ℚ → ℚ → ℚ) (expQ : ℚ → ℚ) (c : SoilConfig)
    (d : DryProps) (Vfluxf Vfluxg : ℚ) (w : MoistWork) (p : PropState) :
    MoistWork × PropState :=
  let m := updateMoisture rpow c Vfluxf Vfluxg w
  (m, updateSoilThermalProps expQ c d m.Moisture m.MeanRootMoisture p)

/-! ## Convective heat-transfer coefficients (lines 797-911)

The C++ code computes the Reynolds and Grashof numbers and then runs
three successive `if` statements (forced, mixed, natural convection);
`h_conv` is assigned only inside those branches, so when none fires the
return value is undefined.  We embed the return value as an `Option`.

Two integer-arithmetic facts about the C++ source are preserved exactly:
the exponent `5/3` in `std::pow(Re,5/3)` is C++ integer division and
equals 1, the exponent `1/3` equals 0 (so those powers are `Re` and `1`),
and `3 * 15/4` is integer arithmetic and equals 11.  The roof plan length
(`sqrt(Surface.Area)`) is taken as the parameter `length`.  `rpow` stands
for `std::pow` with the remaining genuinely non-integer exponents. -/

/-- Kinematic viscosity of air at 300 K (source line 808). -/
def nu_air : ℚ := 0.00001566

/-- Prandtl number for air (source line 809). -/
def Pr_air : ℚ := 0.71

/-- Characteristic length from the roof plan dimensions (source line 826,
with wide = length). -/
def LchaQ (length : ℚ) : ℚ := length * length / (2 * length + 2 * length)

/-- Grashof number as computed at source line 828 (and 887). -/
def GrashofQ (length Tair_k surf_temp : ℚ) : ℚ :=
  let Tavg := 0.5 * (Tair_k + surf_temp)
  let Beta := 1 / Tavg
  |9.81 * Beta * (surf_temp - Tair_k) * LchaQ length ^ 3 / nu_air ^ 2|

/-- Reynolds number as computed at source line 829 (and 888). -/
def ReynoldsQ (length WindSpeed : ℚ) : ℚ := WindSpeed * length / nu_air

/-- Convective coefficient for the plant canopy (source lines 797-852).
The three regime branches assign in source order, a later branch
overwriting an earlier one; no branch leaves the value undefined. -/
def h_conv (rpow : ℚ → ℚ → ℚ) (length Tair_k plant_temp WindSpeed k_air1 : ℚ) :
    Option ℚ :=
  let Gr := GrashofQ length Tair_k plant_temp
  let Re := ReynoldsQ length WindSpeed
  let lcha := LchaQ length
  let v1 : Option ℚ :=
    if Gr < 0.068 * rpow Re 2.2 then
      some (3.0 * (3.0 + 1.25 * 0.0253 * rpow Re 0.8) * k_air1 / length)
    else none
  let v2 : Option ℚ :=
    if Gr > 0.068 * rpow Re 2.2 ∧ Gr < 55.3 * Re then
      let nuNum := 2.7 * 1 * (11 + 0.0253 * 15 / 16 * rpow Re 0.8)
      let norm := Gr / Re / 60
      let lmixed := lcha * norm + length * (1 - norm)
      some (3 * nuNum * k_air1 / lmixed)
    else v1
  if Gr > 55.3 * Re then some (3 * (0.15 * 1) * k_air1 / lcha) else v2

/-- Convective coefficient for bare soil (source lines 855-911): identical
regime logic with leading coefficient 2.1 instead of 3.0. -/
def h_conv_bare (rpow : ℚ → ℚ → ℚ) (length Tair_k BareSoil_temp WindSpeed k_air1 : ℚ) :
    Option ℚ :=
  let Gr := GrashofQ length Tair_k BareSoil_temp
  let Re := ReynoldsQ length WindSpeed
  let lcha := LchaQ length
  let v1 : Option ℚ :=
    if Gr < 0.068 * rpow Re 2.2 then
      some (2.1 * (3.0 + 1.25 * 0.0253 * rpow Re 0.8) * k_air1 / length)
    else none
  let v2 : Option ℚ :=
    if Gr > 0.068 * rpow Re 2.2 ∧ Gr < 55.3 * Re then
      let nuNum := 2.7 * 1 * (11 + 0.0253 * 15 / 16 * rpow Re 0.8)
      let norm := Gr / Re / 60
      let lmixed := lcha * norm + length * (1 - norm)
      some (2.1 * nuNum * k_air1 / lmixed)
    else v1
  if Gr > 55.3 * Re then some (2.1 * (0.15 * 1) * k_air1 / lcha) else v2

/-! ## Variant A: CalcEcoRoof (lines 989-1498) -/

/-- Wind speed used by `CalcEcoRoof` (source lines 1168-1172): the raw
roof-height wind speed floored at 2 m/s before any use. -/
def calcEcoRoofWs (ws : ℚ) : ℚ := if ws < 2.0 then 2.0 else ws

/-- Coefficients entering the linearized FASST equations 37/38: the
environmental and exchange scalars that `CalcEcoRoof` computes once per
timestep (source lines 1296-1448) before the iterative solve.  They are
constants within the solve loop. -/
structure FASSTCoeffs where
  sigmaf : ℚ
  Alphaf : ℚ
  Alphag : ℚ
  epsilonf : ℚ
  epsilong : ℚ
  Latm : ℚ
  RS : ℚ
  sheatf : ℚ
  sheatg : ℚ
  LAI : ℚ
  Rhoaf : ℚ
  Cf : ℚ
  Lef : ℚ
  Waf : ℚ
  rn : ℚ
  dOne : ℚ
  qa : ℚ
  qsf : ℚ
  dqf : ℚ
  qsg : ℚ
  dqg : ℚ
  Mg : ℚ
  Qsoilpart1 : ℚ
  Qsoilpart2 : ℚ
  Rhoag : ℚ
  Ce : ℚ
  Leg : ℚ
  Ta : ℚ

/-- Combined emissivity denominator (source line 1304). -/
def EpsilonOneA (φ : FASSTCoeffs) : ℚ :=
  φ.epsilonf + φ.epsilong - φ.epsilong * φ.epsilonf

/-- First coefficient of the foliage equation (source line 1463). -/
def P1 (φ : FASSTCoeffs) (LeafTK SoilTK : ℚ) : ℚ :=
  φ.sigmaf * (φ.RS * (1 - φ.Alphaf) + φ.epsilonf * φ.Latm) -
    3 * φ.sigmaf * φ.epsilonf * φ.epsilong * SigmaSB * SoilTK ^ 4 / EpsilonOneA φ -
    3 * (-φ.sigmaf * φ.epsilonf * SigmaSB -
      φ.sigmaf * φ.epsilonf * φ.epsilong * SigmaSB / EpsilonOneA φ) * LeafTK ^ 4 +
    φ.sheatf * (1 - 0.7 * φ.sigmaf) * (φ.Ta + KelvinConv) +
    φ.LAI * φ.Rhoaf * φ.Cf * φ.Lef * φ.Waf * φ.rn * ((1 - 0.7 * φ.sigmaf) / φ.dOne) * φ.qa +
    φ.LAI * φ.Rhoaf * φ.Cf * φ.Lef * φ.Waf * φ.rn *
      (((0.6 * φ.sigmaf * φ.rn) / φ.dOne) - 1) * (φ.qsf - LeafTK * φ.dqf) +
    φ.LAI * φ.Rhoaf * φ.Cf * φ.Lef * φ.Waf * φ.rn *
      ((0.1 * φ.sigmaf * φ.Mg) / φ.dOne) * (φ.qsg - SoilTK * φ.dqg)

/-- Second coefficient of the foliage equation (source line 1464). -/
def P2 (φ : FASSTCoeffs) (_LeafTK SoilTK : ℚ) : ℚ :=
  4 * (φ.sigmaf * φ.epsilonf * φ.epsilong * SigmaSB) * SoilTK ^ 3 / EpsilonOneA φ +
    0.1 * φ.sigmaf * φ.sheatf +
    φ.LAI * φ.Rhoaf * φ.Cf * φ.Lef * φ.Waf * φ.rn * (0.1 * φ.sigmaf * φ.Mg) / φ.dOne * φ.dqg

/-- Third coefficient of the foliage equation (source line 1465). -/
def P3 (φ : FASSTCoeffs) (LeafTK _SoilTK : ℚ) : ℚ :=
  4 * (-φ.sigmaf * φ.epsilonf * SigmaSB -
      (φ.sigmaf * φ.epsilonf * SigmaSB * φ.epsilong) / EpsilonOneA φ) * LeafTK ^ 3 +
    (0.6 * φ.sigmaf - 1) * φ.sheatf +
    φ.LAI * φ.Rhoaf * φ.Cf * φ.Lef * φ.Waf * φ.rn *
      (((0.6 * φ.sigmaf * φ.rn) / φ.dOne) - 1) * φ.dqf

/-- First coefficient of the ground equation (source line 1472). -/
def T1G (φ : FASSTCoeffs) (LeafTK SoilTK : ℚ) : ℚ :=
  (1 - φ.sigmaf) * (φ.RS * (1 - φ.Alphag) + φ.epsilong * φ.Latm) -
    (3 * (φ.sigmaf * φ.epsilonf * φ.epsilong * SigmaSB) / EpsilonOneA φ) * LeafTK ^ 4 -
    3 * (-(1 - φ.sigmaf) * φ.epsilong * SigmaSB -
      φ.sigmaf * φ.epsilonf * φ.epsilong * SigmaSB / EpsilonOneA φ) * SoilTK ^ 4 +
    φ.sheatg * (1 - 0.7 * φ.sigmaf) * (φ.Ta + KelvinConv) +
    φ.Rhoag * φ.Ce * φ.Leg * φ.Waf * φ.Mg * ((1 - 0.7 * φ.sigmaf) / φ.dOne) * φ.qa +
    φ.Rhoag * φ.Ce * φ.Leg * φ.Waf * φ.Mg *
      (0.1 * φ.sigmaf * φ.Mg / φ.dOne - φ.Mg) * (φ.qsg - SoilTK * φ.dqg) +
    φ.Rhoag * φ.Ce * φ.Leg * φ.Waf * φ.Mg *
      (0.6 * φ.sigmaf * φ.rn / φ.dOne) * (φ.qsf - LeafTK * φ.dqf) +
    φ.Qsoilpart1 + φ.Qsoilpart2 * KelvinConv

/-- Second coefficient of the ground equation (source line 1474). -/
def T2G (φ : FASSTCoeffs) (_LeafTK SoilTK : ℚ) : ℚ :=
  4 * (-(1 - φ.sigmaf) * φ.epsilong * SigmaSB -
      φ.sigmaf * φ.epsilonf * φ.epsilong * SigmaSB / EpsilonOneA φ) * SoilTK ^ 3 +
    (0.1 * φ.sigmaf - 1) * φ.sheatg +
    φ.Rhoag * φ.Ce * φ.Leg * φ.Waf * φ.Mg * (0.1 * φ.sigmaf * φ.Mg / φ.dOne - φ.Mg) * φ.dqg -
    φ.Qsoilpart2

/-- Third coefficient of the ground equation (source line 1476). -/
def T3G (φ : FASSTCoeffs) (LeafTK _SoilTK : ℚ) : ℚ :=
  (4 * (φ.sigmaf * φ.epsilong * φ.epsilonf * SigmaSB) / EpsilonOneA φ) * LeafTK ^ 3 +
    0.6 * φ.sigmaf * φ.sheatg +
    φ.Rhoag * φ.Ce * φ.Leg * φ.Waf * φ.Mg * (0.6 * φ.sigmaf * φ.rn / φ.dOne) * φ.dqf

/-- One iteration of the Variant A solve loop (source lines 1462-1487):
recompute the six linearization coefficients about the current
(LeafTK, SoilTK) estimate, form the closed-form solution of the 2x2
linear system, and average it with the current estimate. -/
def stepA (φ : FASSTCoeffs) (ts : ℚ × ℚ) : ℚ × ℚ :=
  let p1 := P1 φ ts.1 ts.2
  let p2 := P2 φ ts.1 ts.2
  let p3 := P3 φ ts.1 ts.2
  let t1g := T1G φ ts.1 ts.2
  let t2g := T2G φ ts.1 ts.2
  let t3g := T3G φ ts.1 ts.2
  (0.5 * (ts.1 + (p1 * t2g - p2 * t1g) / (-p3 * t2g + t3g * p2)),
   0.5 * (ts.2 + (p1 * t3g - p3 * t1g) / (-p2 * t3g + p3 * t2g)))

/-- The Variant A joint temperature solve: the loop at source line 1462
runs for EcoLoop = 1, 2, 3 with no other exit. -/
def calcEcoRoofSolve (φ : FASSTCoeffs) (LeafTK SoilTK : ℚ) : ℚ × ℚ :=
  (stepA φ)^[3] (LeafTK, SoilTK)

/-- Variant A evapotranspiration rate from vegetation (source lines
1447 and 1449): sign-converted latent flux, clamped at zero. -/
def calcEcoRoofVfluxf (Lf Lef : ℚ) : ℚ :=
  let v := -1 * Lf / Lef / 990
  if v < 0 then 0 else v

/-- Variant A evapotranspiration rate from the ground (source lines
1448 and 1450): sign-converted latent flux, clamped at zero. -/
def calcEcoRoofVfluxg (Lg Leg : ℚ) : ℚ :=
  let v := -1 * Lg / Leg / 990
  if v < 0 then 0 else v

/-- The module state owned by the reference eco-roof surface in Variant A:
moisture reservoirs, cumulative accumulators, the thermal-property record,
and the previous-timestep temperatures that seed the solve. -/
structure EcoGlobalA where
  moist : MoistWork
  props : PropState
  Tfold : ℚ
  Tgold : ℚ

/-- The per-surface dispatch of `CalcEcoRoof` (source lines 1278, 1492,
1495-1496): all solver and moisture-model work (abstracted as `work`)
runs only when the invoked surface is the remembered first eco-roof
surface; every invocation then reports the stored ground temperature as
TH(SurfNum,1,1) and TempExt.  The result is (state, TH, TempExt). -/
def CalcEcoRoofDispatch (FirstEcoSurf SurfNum : ℤ)
    (work : EcoGlobalA → EcoGlobalA) (g : EcoGlobalA) : EcoGlobalA × ℚ × ℚ :=
  let g1 := if SurfNum = FirstEcoSurf then work g else g
  (g1, g1.Tgold, g1.Tgold)

/-! ## Variant B: the scalar root-find skeleton (lines 482-735)

`GreenRoof_with_PlantCoverage` solves three scalar energy balances
(plant, vegetated soil, bare soil) with the same control skeleton: a
Newton do-while loop with tolerance 1e-4, a check at iteration 100 that
switches to bisection between the two most recently recorded iterates
when their function values have opposite signs, and acceptance of the
last Newton estimate otherwise.  The skeleton is embedded once,
parameterized by the balance function F and its derivative Fp (which in
the source involve transcendental flux correlations); the iteration
policy is independent of their values. -/

/-- Outcome of one scalar solve: converged Newton step (with the estimate
it was compared against), bisection exit (with the midpoint it was
compared against), or the unconverged last Newton estimate accepted at
the 100-iteration mark. -/
inductive NROut where
  | newton (tnew told : ℚ) : NROut
  | bisect (tnew mid : ℚ) : NROut
  | accept (tnew : ℚ) : NROut
deriving Repr, DecidableEq

/-- The temperature a solve hands back (T_plant := Tp_new at the labels
1100/2200/3300). -/
def NROut.value : NROut → ℚ
  | newton t _ => t
  | bisect t _ => t
  | accept t => t

/-- State of the bisection fallback loop (source lines 520-551): the two
bracket endpoints with their function values, the current midpoint, and
the candidate Tp_new. -/
structure BisectState where
  Sol1 : ℚ
  Sol2 : ℚ
  Func1 : ℚ
  Func2 : ℚ
  MidPoint : ℚ
  Tpnew : ℚ

/-- One body of the bisection loop (source lines 532-550): evaluate F at
the midpoint and replace the endpoint whose function value it opposes. -/
def bisectBody (F : ℚ → ℚ) (s : BisectState) : BisectState :=
  let FM := F s.MidPoint
  if (FM < 0 ∧ s.Func1 > 0) ∨ (FM > 0 ∧ s.Func1 < 0) then
    { s with Tpnew := 0.5 * (s.MidPoint + s.Sol1), Func2 := FM, Sol2 := s.MidPoint }
  else if (FM < 0 ∧ s.Func2 > 0) ∨ (FM > 0 ∧ s.Func2 < 0) then
    { s with Tpnew := 0.5 * (s.MidPoint + s.Sol2), Func1 := FM, Sol1 := s.MidPoint }
  else s

/-- The bisection do-while loop (source lines 521-551): runs until
successive estimates are within the tolerance, then yields the pair
(Tp_new, MidPoint) it exited on; on continuation the next midpoint is the
current Tp_new (source line 530).  `fuel` makes the recursion structural;
the termination theorem shows some fuel always suffices. -/
def bisectRun (F : ℚ → ℚ) (tol : ℚ) : ℕ → BisectState → Option (ℚ × ℚ)
  | 0, _ => none
  | n + 1, s =>
    if |(bisectBody F s).Tpnew - (bisectBody F s).MidPoint| ≤ tol then
      some ((bisectBody F s).Tpnew, (bisectBody F s).MidPoint)
    else bisectRun F tol n { bisectBody F s with MidPoint := (bisectBody F s).Tpnew }

/-- The Newton do-while loop with the iteration-100 fallback (source
lines 487-559).  `fuel` is the number of iterations left before the
100th: the loop starts at fuel 99, and at fuel 0 (iteration 100) either
switches to bisection between the two most recent recorded iterates
(told and tprev, with their recorded function values) when those function
values have opposite signs, or accepts the freshly computed Newton
estimate. -/
def nrAux (F step : ℚ → ℚ) (tol : ℚ) (bfuel : ℕ) : ℕ → ℚ → ℚ → Option NROut
  | fuel + 1, _tprev, told =>
    if |step told - told| ≤ tol then some (.newton (step told) told)
    else nrAux F step tol bfuel fuel told (step told)
  | 0, tprev, told =>
    if (F told < 0 ∧ F tprev > 0) ∨ (F told > 0 ∧ F tprev < 0) then
      (bisectRun F tol bfuel
        ⟨told, tprev, F told, F tprev, 0.5 * (told + tprev), step told⟩).map
        (fun p => NROut.bisect p.1 p.2)
    else some (.accept (step told))

/-- A Newton-Raphson step as the source computes it (e.g. line 510):
tnew = told - F(told)/Fp(told). -/
def newtonStep (F Fp : ℚ → ℚ) (t : ℚ) : ℚ := t - F t / Fp t

/-- One scalar temperature solve of Variant B: Newton iteration from the
previous-timestep temperature with tolerance 1e-4 and the bisection
fallback at 100 iterations. -/
def variantBRootFind (F Fp : ℚ → ℚ) (Tinit : ℚ) (bfuel : ℕ) : Option NROut :=
  nrAux F (newtonStep F Fp) 0.0001 bfuel 99 Tinit Tinit

/-! ## Variant B: first-surface computation and coverage blending
(lines 423-789)

The three root-finds and the flux expressions evaluated after them
involve the transcendental correlations; they enter as oracle fields of
`VarBEnv`, each applied to exactly the data the source passes (in
particular the wind speed WS, taken unfloored from the weather provider
at source line 431).  The coverage-fraction guards, the blending weights,
the latent-heat conversion and the zero clamps are embedded exactly. -/

/-- Environment and oracles for one first-surface Variant B timestep. -/
structure VarBEnv where
  sigma_f : ℚ
  WindSpeedAtZ : ℚ
  tau_sw : ℚ
  Alphag : ℚ
  RS : ℚ
  Qsoilpart1 : ℚ
  Qsoilpart2 : ℚ
  plantSolve : ℚ → ℚ → ℚ → ℚ
  qETp : ℚ → ℚ → ℚ → ℚ
  qconvP : ℚ → ℚ → ℚ
  soilSolve : ℚ → ℚ → ℚ → ℚ → ℚ
  qEs : ℚ → ℚ → ℚ
  qconvS : ℚ → ℚ → ℚ → ℚ
  qIRs : ℚ → ℚ → ℚ
  bareSolve : ℚ → ℚ → ℚ → ℚ
  qEbare : ℚ → ℚ → ℚ
  qconvBare : ℚ → ℚ → ℚ
  qIRbare : ℚ → ℚ

/-- The static (carried-over) variables of `GreenRoof_with_PlantCoverage`
that the computation reads and writes. -/
structure VarBState where
  T_plant : ℚ
  T_soil : ℚ
  T_bare_soil : ℚ
  Q_ET_p : ℚ
  Q_E_s : ℚ
  Q_E_bare_s : ℚ
  Vfluxf : ℚ
  Vfluxg : ℚ
  T_plant_Rep : ℚ
  Qconv_p_Rep : ℚ
  Q_ET_p_Rep : ℚ
  Qconv_s_Rep : ℚ
  Q_sol_soil_Rep : ℚ
  Q_IR_s_Rep : ℚ
  Q_E_s_Rep : ℚ
  Qconv_bare_s_Rep : ℚ
  Q_sol_bare_s_Rep : ℚ
  Q_IR_bare_s_Rep : ℚ
  Q_E_bare_s_Rep : ℚ

/-- Result of one first-surface Variant B timestep: the updated statics,
the blended outputs, and the wind speed that was handed to the flux
correlations. -/
structure VarBOut where
  state : VarBState
  Tsoil_avg : ℚ
  TempExt : ℚ
  THout : ℚ
  Tsoil_avg_Rep : ℚ
  Qconv_s_avg_Rep : ℚ
  Q_E_avg_Rep : ℚ
  Q_sol_s_avg_Rep : ℚ
  Q_IR_s_avg_Rep : ℚ
  Qcond_avg_Rep : ℚ
  WSused : ℚ

/-- Latent heat of vaporization at a temperature in Kelvin, with the
frost/sublimation branch (source lines 747-749 and 751-753). -/
def i_fgQ (T : ℚ) : ℚ :=
  let v := (-2.3793 * (T - KelvinConv) + 2501.1) * 1000
  if T - KelvinConv < 0 then 2838000 else v

/-- Plant block of the first-surface computation (source lines 482-569):
run the plant root-find and recompute the plant latent/sensible fluxes at
the solution, only when sigma_f is not 0. -/
def plantBlock (env : VarBEnv) (s : VarBState) : ℚ × ℚ × ℚ × ℚ :=
  let WS := env.WindSpeedAtZ
  let Tp := if env.sigma_f ≠ 0 then env.plantSolve WS s.T_plant s.T_soil else s.T_plant
  let qetp := if env.sigma_f ≠ 0 then env.qETp WS Tp s.T_soil else s.Q_ET_p
  let qetpRep := if env.sigma_f ≠ 0 then env.qETp WS Tp s.T_soil else s.Q_ET_p_Rep
  let qconvpRep := if env.sigma_f ≠ 0 then env.qconvP WS Tp else s.Qconv_p_Rep
  (Tp, qetp, qetpRep, qconvpRep)

/-- Vegetated-soil block of the first-surface computation (source lines
574-657): run the vegetated-soil root-find (using the fresh plant
temperature) and recompute the soil fluxes at the solution, only when
sigma_f is not 0.  Q_E_s is floored at zero as at source lines 652-653. -/
def soilBlock (env : VarBEnv) (s : VarBState) (Tp : ℚ) : ℚ × ℚ × ℚ × ℚ × ℚ × ℚ :=
  let WS := env.WindSpeedAtZ
  let Ts := if env.sigma_f ≠ 0 then env.soilSolve WS s.T_soil Tp s.T_bare_soil else s.T_soil
  let qes := if env.sigma_f ≠ 0 then max 0 (env.qEs WS Ts) else s.Q_E_s
  let qesRep := if env.sigma_f ≠ 0 then max 0 (env.qEs WS Ts) else s.Q_E_s_Rep
  let qconvsRep := if env.sigma_f ≠ 0 then env.qconvS WS Tp Ts else s.Qconv_s_Rep
  let qsolsRep := if env.sigma_f ≠ 0 then env.tau_sw * (1 - env.Alphag) * env.RS
    else s.Q_sol_soil_Rep
  let qirsRep := if env.sigma_f ≠ 0 then env.qIRs Tp Ts else s.Q_IR_s_Rep
  (Ts, qes, qesRep, qconvsRep, qsolsRep, qirsRep)

/-- Bare-soil block of the first-surface computation (source lines
661-735): run the bare-soil root-find (using the fresh vegetated-soil
temperature) and recompute the bare-soil fluxes at the solution, only
when sigma_f is not 1. -/
def bareBlock (env : VarBEnv) (s : VarBState) (Ts : ℚ) : ℚ × ℚ × ℚ × ℚ × ℚ × ℚ :=
  let WS := env.WindSpeedAtZ
  let Tb := if env.sigma_f ≠ 1 then env.bareSolve WS s.T_bare_soil Ts else s.T_bare_soil
  let qeb := if env.sigma_f ≠ 1 then env.qEbare WS Tb else s.Q_E_bare_s
  let qebRep := if env.sigma_f ≠ 1 then env.qEbare WS Tb else s.Q_E_bare_s_Rep
  let qconvbRep := if env.sigma_f ≠ 1 then env.qconvBare WS Tb else s.Qconv_bare_s_Rep
  let qsolbRep := if env.sigma_f ≠ 1 then (1 - env.Alphag) * env.RS else s.Q_sol_bare_s_Rep
  let qirbRep := if env.sigma_f ≠ 1 then env.qIRbare Tb else s.Q_IR_bare_s_Rep
  (Tb, qeb, qebRep, qconvbRep, qsolbRep, qirbRep)

/-- One first-surface timestep of `GreenRoof_with_PlantCoverage` (source
lines 423-789): the three solve blocks in source order, then the
coverage-weighted average soil temperature (line 739), the
evapotranspiration rates with the sigma_f = 0 short-circuit and the zero
clamps (lines 747-764), the TempExt/TH outputs (lines 770-771) and the
report blends with the sigma_f = 0 plant-report zeroing (lines 773-789). -/
def GreenRoof_firstSurface (env : VarBEnv) (s : VarBState) : VarBOut :=
  let WS := env.WindSpeedAtZ
  let (Tp, qetp, qetpRep, qconvpRep) := plantBlock env s
  let (Ts, qes, qesRep, qconvsRep, qsolsRep, qirsRep) := soilBlock env s Tp
  let (Tb, qeb, qebRep, qconvbRep, qsolbRep, qirbRep) := bareBlock env s Ts
  let TsoilAvg := env.sigma_f * Ts + (1 - env.sigma_f) * Tb
  let ifgp := i_fgQ Tp
  let ifgg := i_fgQ TsoilAvg
  let vff0 := if env.sigma_f = 0 then 0 else qetp / ifgp / 990
  let qeavg := env.sigma_f * qes + (1 - env.sigma_f) * qeb
  let vfg0 := qeavg / ifgg / 990
  let vff := if vff0 < 0 then 0 else vff0
  let vfg := if vfg0 < 0 then 0 else vfg0
  let tplantRep := if env.sigma_f ≠ 0 then Tp - KelvinConv else 0
  let qconvpRepF := if env.sigma_f ≠ 0 then qconvpRep else 0
  let qetpRepF := if env.sigma_f ≠ 0 then qetpRep else 0
  let st : VarBState :=
    { T_plant := Tp, T_soil := Ts, T_bare_soil := Tb
      Q_ET_p := qetp, Q_E_s := qes, Q_E_bare_s := qeb
      Vfluxf := vff, Vfluxg := vfg
      T_plant_Rep := tplantRep, Qconv_p_Rep := qconvpRepF, Q_ET_p_Rep := qetpRepF
      Qconv_s_Rep := qconvsRep, Q_sol_soil_Rep := qsolsRep
      Q_IR_s_Rep := qirsRep, Q_E_s_Rep := qesRep
      Qconv_bare_s_Rep := qconvbRep, Q_sol_bare_s_Rep := qsolbRep
      Q_IR_bare_s_Rep := qirbRep, Q_E_bare_s_Rep := qebRep }
  { state := st
    Tsoil_avg := TsoilAvg
    TempExt := TsoilAvg - KelvinConv
    THout := TsoilAvg - KelvinConv
    Tsoil_avg_Rep := TsoilAvg - KelvinConv
    Qconv_s_avg_Rep := env.sigma_f * qconvsRep + (1 - env.sigma_f) * qconvbRep
    Q_E_avg_Rep := env.sigma_f * qesRep + (1 - env.sigma_f) * qebRep
    Q_sol_s_avg_Rep := env.sigma_f * qsolsRep + (1 - env.sigma_f) * qsolbRep
    Q_IR_s_avg_Rep := env.sigma_f * qirsRep + (1 - env.sigma_f) * qirbRep
    Qcond_avg_Rep := -env.Qsoilpart1 + env.Qsoilpart2 *
      (env.sigma_f * (Ts - KelvinConv) + (1 - env.sigma_f) * (Tb - KelvinConv))
    WSused := WS }

/-! ## Helper lemmas -/

lemma clampTestRat_mem (rmin rmax x : ℚ) (h : rmin ≤ rmax) :
    rmin ≤ clampTestRat rmin rmax x ∧ clampTestRat rmin rmax x ≤ rmax := by
  simp only [clampTestRat]
  split_ifs <;> constructor <;> linarith

lemma RatioMin_le_RatioMax (c : SoilConfig) (h : 0 ≤ c.MinutesPerTimeStep) :
    RatioMin c ≤ RatioMax c := by
  simp only [RatioMin, RatioMax]
  linarith

lemma mul_clampTestRat_mem (a rmin rmax x : ℚ) (ha : 0 < a) (h : rmin ≤ rmax) :
    rmin * a ≤ a * clampTestRat rmin rmax x ∧
    a * clampTestRat rmin rmax x ≤ rmax * a := by
  obtain ⟨h1, h2⟩ := clampTestRat_mem rmin rmax x h
  constructor
  · rw [mul_comm a]
    exact mul_le_mul_of_nonneg_right h1 ha.le
  · rw [mul_comm rmax]
    exact mul_le_mul_of_nonneg_left h2 ha.le

lemma zeroClamp_nonneg (x : ℚ) : 0 ≤ if x < 0 then 0 else x := by
  split <;> linarith

/-! ## Claim theorems -/

/-- C7: on every call to `UpdateSoilProps`, the stored material
conductivity, density, specific heat, and ground albedo each change by a
multiplicative factor within [1 - 0.20·MinutesPerTimeStep/15,
1 + 0.20·MinutesPerTimeStep/15] relative to their previous-timestep
values (here: the new value lies between RatioMin and RatioMax times the
old positive value, for a nonnegative timestep length). -/
theorem updateSoilProps_rate_limit (rpow : ℚ → ℚ → ℚ) (expQ : ℚ → ℚ)
    (c : SoilConfig) (d : DryProps) (Vfluxf Vfluxg : ℚ) (w : MoistWork) (p : PropState)
    (hmpt : 0 ≤ c.MinutesPerTimeStep) (ha : 0 < p.Alphag)
    (hc : 0 < p.matConductivity) (hd : 0 < p.matDensity) (hs : 0 < p.matSpecHeat) :
    (RatioMin c * p.Alphag ≤ (UpdateSoilProps rpow expQ c d Vfluxf Vfluxg w p).2.Alphag ∧
      (UpdateSoilProps rpow expQ c d Vfluxf Vfluxg w p).2.Alphag ≤ RatioMax c * p.Alphag) ∧
    (RatioMin c * p.matConductivity ≤
        (UpdateSoilProps rpow expQ c d Vfluxf Vfluxg w p).2.matConductivity ∧
      (UpdateSoilProps rpow expQ c d Vfluxf Vfluxg w p).2.matConductivity ≤
        RatioMax c * p.matConductivity) ∧
    (RatioMin c * p.matDensity ≤ (UpdateSoilProps rpow expQ c d Vfluxf Vfluxg w p).2.matDensity ∧
      (UpdateSoilProps rpow expQ c d Vfluxf Vfluxg w p).2.matDensity ≤
        RatioMax c * p.matDensity) ∧
    (RatioMin c * p.matSpecHeat ≤ (UpdateSoilProps rpow expQ c d Vfluxf Vfluxg w p).2.matSpecHeat ∧
      (UpdateSoilProps rpow expQ c d Vfluxf Vfluxg w p).2.matSpecHeat ≤
        RatioMax c * p.matSpecHeat) := by
  have hmm := RatioMin_le_RatioMax c hmpt
  refine ⟨?_, ?_, ?_, ?_⟩ <;>
    simpa [UpdateSoilProps, updateSoilThermalProps] using
      mul_clampTestRat_mem _ _ _ _ (by assumption) hmm

/-- C7 witness: the rate-limit bounds hold at a concrete call. -/
theorem updateSoilProps_rate_limit_witness :
    let c : SoilConfig :=
      { MoistureMax := 0.5, MoistureResidual := 0.1, SoilThickness := 0.2
        MinutesPerTimeStep := 60, EcoRoofCalculationMethod := 1
        rainDesign := false, rainAmount := 0, irrDesign := false, irrSmart := false
        irrAmount := 0, irrThreshold := 0 }
    let d : DryProps := { DryCond := 0.3, DryDens := 1100, DryAbsorp := 0.7, DrySpecHeat := 1200 }
    let w : MoistWork :=
      { Moisture := 0.3, MeanRootMoisture := 0.3, CurrentRunoff := 0
        CurrentET := 0, CurrentPrecipitation := 0, CurrentIrrigation := 0 }
    let p : PropState :=
      { Alphag := 0.25, matConductivity := 0.3, matDensity := 1100, matSpecHeat := 1200 }
    (RatioMin c * p.Alphag ≤ (UpdateSoilProps (fun x _ => x) (fun x => 1 + x) c d 0 0 w p).2.Alphag ∧
      (UpdateSoilProps (fun x _ => x) (fun x => 1 + x) c d 0 0 w p).2.Alphag ≤
        RatioMax c * p.Alphag) ∧
    (RatioMin c * p.matConductivity ≤
        (UpdateSoilProps (fun x _ => x) (fun x => 1 + x) c d 0 0 w p).2.matConductivity ∧
      (UpdateSoilProps (fun x _ => x) (fun x => 1 + x) c d 0 0 w p).2.matConductivity ≤
        RatioMax c * p.matConductivity) ∧
    (RatioMin c * p.matDensity ≤
        (UpdateSoilProps (fun x _ => x) (fun x => 1 + x) c d 0 0 w p).2.matDensity ∧
      (UpdateSoilProps (fun x _ => x) (fun x => 1 + x) c d 0 0 w p).2.matDensity ≤
        RatioMax c * p.matDensity) ∧
    (RatioMin c * p.matSpecHeat ≤
        (UpdateSoilProps (fun x _ => x) (fun x => 1 + x) c d 0 0 w p).2.matSpecHeat ∧
      (UpdateSoilProps (fun x _ => x) (fun x => 1 + x) c d 0 0 w p).2.matSpecHeat ≤
        RatioMax c * p.matSpecHeat) := by
  exact updateSoilProps_rate_limit (fun x _ => x) (fun x => 1 + x) _ _ 0 0 _ _
    (by norm_num) (by norm_num) (by norm_num) (by norm_num) (by norm_num)

/-- C8: the evapotranspiration rates handed to the moisture model are
never negative: in Variant B the output Vfluxf/Vfluxg are nonnegative,
and in Variant A the computed rates are clamped at zero (a negative
computed rate yields exactly zero rather than an error). -/
theorem vflux_never_negative (env : VarBEnv) (s : VarBState) (Lf Lef Lg Leg : ℚ) :
    0 ≤ (GreenRoof_firstSurface env s).state.Vfluxf ∧
    0 ≤ (GreenRoof_firstSurface env s).state.Vfluxg ∧
    0 ≤ calcEcoRoofVfluxf Lf Lef ∧
    0 ≤ calcEcoRoofVfluxg Lg Leg ∧
    (-1 * Lf / Lef / 990 < 0 → calcEcoRoofVfluxf Lf Lef = 0) ∧
    (-1 * Lg / Leg / 990 < 0 → calcEcoRoofVfluxg Lg Leg = 0) := by
  refine ⟨?_, ?_, ?_, ?_, ?_, ?_⟩
  · exact zeroClamp_nonneg _
  · exact zeroClamp_nonneg _
  · exact zeroClamp_nonneg _
  · exact zeroClamp_nonneg _
  · intro h; simp only [calcEcoRoofVfluxf]; rw [if_pos h]
  · intro h; simp only [calcEcoRoofVfluxg]; rw [if_pos h]

/-- C8 witness: the clamps at a concrete negative computed rate. -/
theorem vflux_never_negative_witness :
    let env : VarBEnv :=
      { sigma_f := 0, WindSpeedAtZ := 2, tau_sw := 1, Alphag := 0.3, RS := 0
        Qsoilpart1 := 0, Qsoilpart2 := 0
        plantSolve := fun _ _ _ => 0, qETp := fun _ _ _ => 0, qconvP := fun _ _ => 0
        soilSolve := fun _ _ _ _ => 0, qEs := fun _ _ => 0, qconvS := fun _ _ _ => 0
        qIRs := fun _ _ => 0, bareSolve := fun _ _ _ => 0, qEbare := fun _ _ => 0
        qconvBare := fun _ _ => 0, qIRbare := fun _ => 0 }
    let s : VarBState :=
      { T_plant := 290, T_soil := 290, T_bare_soil := 290
        Q_ET_p := 0, Q_E_s := 0, Q_E_bare_s := 0, Vfluxf := 0, Vfluxg := 0
        T_plant_Rep := 0, Qconv_p_Rep := 0, Q_ET_p_Rep := 0
        Qconv_s_Rep := 0, Q_sol_soil_Rep := 0, Q_IR_s_Rep := 0, Q_E_s_Rep := 0
        Qconv_bare_s_Rep := 0, Q_sol_bare_s_Rep := 0, Q_IR_bare_s_Rep := 0
        Q_E_bare_s_Rep := 0 }
    0 ≤ (GreenRoof_firstSurface env s).state.Vfluxf ∧
    0 ≤ (GreenRoof_firstSurface env s).state.Vfluxg ∧
    0 ≤ calcEcoRoofVfluxf 100 2000000 ∧
    0 ≤ calcEcoRoofVfluxg 100 2000000 ∧
    (-1 * (100 : ℚ) / 2000000 / 990 < 0 → calcEcoRoofVfluxf 100 2000000 = 0) ∧
    (-1 * (100 : ℚ) / 2000000 / 990 < 0 → calcEcoRoofVfluxg 100 2000000 = 0) := by
  exact vflux_never_negative _ _ 100 2000000 100 2000000

/-- C10 counterexample: in Variant B no wind-speed floor is applied; with
a roof-height wind speed of 0.5 m/s the value handed to the flux
correlations is 0.5 m/s, below the claimed 2 m/s minimum. -/
def cexEnvSlowWind : VarBEnv :=
  { sigma_f := 0.5, WindSpeedAtZ := 0.5, tau_sw := 1, Alphag := 0.3, RS := 0
    Qsoilpart1 := 0, Qsoilpart2 := 0
    plantSolve := fun _ _ _ => 0, qETp := fun _ _ _ => 0, qconvP := fun _ _ => 0
    soilSolve := fun _ _ _ _ => 0, qEs := fun _ _ => 0, qconvS := fun _ _ _ => 0
    qIRs := fun _ _ => 0, bareSolve := fun _ _ _ => 0, qEbare := fun _ _ => 0
    qconvBare := fun _ _ => 0, qIRbare := fun _ => 0 }

/-- The all-zero Variant B static state, used for concrete evaluations. -/
def zeroStateB : VarBState :=
  { T_plant := 0, T_soil := 0, T_bare_soil := 0
    Q_ET_p := 0, Q_E_s := 0, Q_E_bare_s := 0, Vfluxf := 0, Vfluxg := 0
    T_plant_Rep := 0, Qconv_p_Rep := 0, Q_ET_p_Rep := 0
    Qconv_s_Rep := 0, Q_sol_soil_Rep := 0, Q_IR_s_Rep := 0, Q_E_s_Rep := 0
    Qconv_bare_s_Rep := 0, Q_sol_bare_s_Rep := 0, Q_IR_bare_s_Rep := 0
    Q_E_bare_s_Rep := 0 }

/-- C10 counterexample: the wind speed used by
`GreenRoof_with_PlantCoverage` at a 0.5 m/s forcing is 0.5 m/s, not at
least 2 m/s. -/
theorem windspeed_floor_cex :
    (GreenRoof_firstSurface cexEnvSlowWind zeroStateB).WSused = 0.5 ∧
    ¬ (2 ≤ (GreenRoof_firstSurface cexEnvSlowWind zeroStateB).WSused) := by
  constructor
  · rfl
  · intro h
    have : (GreenRoof_firstSurface cexEnvSlowWind zeroStateB).WSused = 0.5 := rfl
    rw [this] at h
    norm_num at h

/-- C10 amended: the 2 m/s wind-speed floor is applied in Variant A
(`CalcEcoRoof`, source lines 1168-1172) before any flux use; Variant B
(`GreenRoof_with_PlantCoverage`) applies no floor and hands the raw
roof-height wind speed to its flux correlations. -/
theorem windspeed_floor_variantA_only :
    (∀ ws : ℚ, 2 ≤ calcEcoRoofWs ws) ∧
    (∀ (env : VarBEnv) (s : VarBState),
      (GreenRoof_firstSurface env s).WSused = env.WindSpeedAtZ) := by
  constructor
  · intro ws
    simp only [calcEcoRoofWs]
    split <;> linarith
  · intro env s
    rfl

/-- C3 supporting theorem (Variant A half): a `CalcEcoRoof` invocation
for a surface other than the remembered first eco-roof surface leaves the
module state (moisture reservoirs, accumulators, thermal-property record,
stored temperatures) unchanged and only assigns the stored reference
ground temperature to TH and TempExt. -/
theorem calcEcoRoof_nonfirst_frame (FirstEcoSurf SurfNum : ℤ)
    (work : EcoGlobalA → EcoGlobalA) (g : EcoGlobalA)
    (h : SurfNum ≠ FirstEcoSurf) :
    (CalcEcoRoofDispatch FirstEcoSurf SurfNum work g).1 = g ∧
    (CalcEcoRoofDispatch FirstEcoSurf SurfNum work g).2.1 = g.Tgold ∧
    (CalcEcoRoofDispatch FirstEcoSurf SurfNum work g).2.2 = g.Tgold := by
  simp [CalcEcoRoofDispatch, h]

/-- C3 witness: the frame property at a concrete non-first surface. -/
theorem calcEcoRoof_nonfirst_frame_witness :
    let g : EcoGlobalA :=
      { moist := { Moisture := 0.3, MeanRootMoisture := 0.3, CurrentRunoff := 0
                   CurrentET := 0, CurrentPrecipitation := 0, CurrentIrrigation := 0 }
        props := { Alphag := 0.25, matConductivity := 0.3, matDensity := 1100
                   matSpecHeat := 1200 }
        Tfold := 10, Tgold := 12 }
    (CalcEcoRoofDispatch 1 2 id g).1 = g ∧
    (CalcEcoRoofDispatch 1 2 id g).2.1 = g.Tgold ∧
    (CalcEcoRoofDispatch 1 2 id g).2.2 = g.Tgold := by
  exact calcEcoRoof_nonfirst_frame 1 2 id _ (by norm_num)

/-- C4: coverage-fraction edge cases of Variant B.  At sigma_f = 0 the
plant root-find is skipped (the stored plant temperature is untouched),
the reported plant temperature and plant fluxes are zero, and the blended
soil temperature equals the bare-soil solution.  At sigma_f = 1 the
bare-soil root-find is skipped, the reported bare-soil quantities enter
every blend with weight zero (each blend equals its vegetated-soil
component), and the blended soil temperature equals the vegetated-soil
solution. -/
theorem coverage_edge_cases (env : VarBEnv) (s : VarBState) :
    (env.sigma_f = 0 →
      (GreenRoof_firstSurface env s).state.T_plant = s.T_plant ∧
      (GreenRoof_firstSurface env s).state.T_plant_Rep = 0 ∧
      (GreenRoof_firstSurface env s).state.Qconv_p_Rep = 0 ∧
      (GreenRoof_firstSurface env s).state.Q_ET_p_Rep = 0 ∧
      (GreenRoof_firstSurface env s).state.Vfluxf = 0 ∧
      (GreenRoof_firstSurface env s).Tsoil_avg =
        (GreenRoof_firstSurface env s).state.T_bare_soil) ∧
    (env.sigma_f = 1 →
      (GreenRoof_firstSurface env s).state.T_bare_soil = s.T_bare_soil ∧
      (GreenRoof_firstSurface env s).Tsoil_avg = (GreenRoof_firstSurface env s).state.T_soil ∧
      (GreenRoof_firstSurface env s).Qconv_s_avg_Rep =
        (GreenRoof_firstSurface env s).state.Qconv_s_Rep ∧
      (GreenRoof_firstSurface env s).Q_E_avg_Rep =
        (GreenRoof_firstSurface env s).state.Q_E_s_Rep ∧
      (GreenRoof_firstSurface env s).Q_sol_s_avg_Rep =
        (GreenRoof_firstSurface env s).state.Q_sol_soil_Rep ∧
      (GreenRoof_firstSurface env s).Q_IR_s_avg_Rep =
        (GreenRoof_firstSurface env s).state.Q_IR_s_Rep) := by
  constructor
  · intro h
    refine ⟨?_, ?_, ?_, ?_, ?_, ?_⟩ <;>
      simp [GreenRoof_firstSurface, plantBlock, soilBlock, bareBlock, h]
  · intro h
    refine ⟨?_, ?_, ?_, ?_, ?_, ?_⟩ <;>
      simp [GreenRoof_firstSurface, plantBlock, soilBlock, bareBlock, h]

/-- Concrete Variant B environment with zero plant coverage. -/
def envCoverageZero : VarBEnv :=
  { sigma_f := 0, WindSpeedAtZ := 3, tau_sw := 1, Alphag := 0.3, RS := 100
    Qsoilpart1 := 5, Qsoilpart2 := 2
    plantSolve := fun _ tp _ => tp + 1, qETp := fun _ _ _ => 7, qconvP := fun _ _ => 8
    soilSolve := fun _ ts _ _ => ts + 2, qEs := fun _ _ => 9, qconvS := fun _ _ _ => 10
    qIRs := fun _ _ => 11, bareSolve := fun _ tb _ => tb + 3, qEbare := fun _ _ => 12
    qconvBare := fun _ _ => 13, qIRbare := fun _ => 14 }

/-- Concrete Variant B environment with full plant coverage. -/
def envCoverageOne : VarBEnv :=
  { envCoverageZero with sigma_f := 1 }

/-- C4 witness: both coverage edge cases at concrete instances. -/
theorem coverage_edge_cases_witness :
    ((GreenRoof_firstSurface envCoverageZero zeroStateB).state.T_plant = zeroStateB.T_plant ∧
      (GreenRoof_firstSurface envCoverageZero zeroStateB).state.T_plant_Rep = 0 ∧
      (GreenRoof_firstSurface envCoverageZero zeroStateB).state.Qconv_p_Rep = 0 ∧
      (GreenRoof_firstSurface envCoverageZero zeroStateB).state.Q_ET_p_Rep = 0 ∧
      (GreenRoof_firstSurface envCoverageZero zeroStateB).state.Vfluxf = 0 ∧
      (GreenRoof_firstSurface envCoverageZero zeroStateB).Tsoil_avg =
        (GreenRoof_firstSurface envCoverageZero zeroStateB).state.T_bare_soil) ∧
    ((GreenRoof_firstSurface envCoverageOne zeroStateB).state.T_bare_soil =
        zeroStateB.T_bare_soil ∧
      (GreenRoof_firstSurface envCoverageOne zeroStateB).Tsoil_avg =
        (GreenRoof_firstSurface envCoverageOne zeroStateB).state.T_soil ∧
      (GreenRoof_firstSurface envCoverageOne zeroStateB).Qconv_s_avg_Rep =
        (GreenRoof_firstSurface envCoverageOne zeroStateB).state.Qconv_s_Rep ∧
      (GreenRoof_firstSurface envCoverageOne zeroStateB).Q_E_avg_Rep =
        (GreenRoof_firstSurface envCoverageOne zeroStateB).state.Q_E_s_Rep ∧
      (GreenRoof_firstSurface envCoverageOne zeroStateB).Q_sol_s_avg_Rep =
        (GreenRoof_firstSurface envCoverageOne zeroStateB).state.Q_sol_soil_Rep ∧
      (GreenRoof_firstSurface envCoverageOne zeroStateB).Q_IR_s_avg_Rep =
        (GreenRoof_firstSurface envCoverageOne zeroStateB).state.Q_IR_s_Rep) := by
  exact ⟨(coverage_edge_cases envCoverageZero zeroStateB).1 rfl,
    (coverage_edge_cases envCoverageOne zeroStateB).2 rfl⟩

/-- C6: Variant A performs exactly 3 iterations of the joint solve with
no convergence test: the solve is the 3-fold iterate of a step that, at
any current estimate with nonzero system determinant, recomputes the
linearization coefficients about that estimate and moves each unknown to
the average of its current value and the closed-form solution of the
linear system P1 + P2·S + P3·L = 0, T1G + T2G·S + T3G·L = 0. -/
theorem calcEcoRoof_three_iterations (φ : FASSTCoeffs) (L0 S0 : ℚ) :
    calcEcoRoofSolve φ L0 S0 = stepA φ (stepA φ (stepA φ (L0, S0))) ∧
    (∀ L S : ℚ, -P3 φ L S * T2G φ L S + T3G φ L S * P2 φ L S ≠ 0 →
      P1 φ L S + P2 φ L S *
          ((P1 φ L S * T3G φ L S - P3 φ L S * T1G φ L S) /
            (-P2 φ L S * T3G φ L S + P3 φ L S * T2G φ L S)) +
        P3 φ L S *
          ((P1 φ L S * T2G φ L S - P2 φ L S * T1G φ L S) /
            (-P3 φ L S * T2G φ L S + T3G φ L S * P2 φ L S)) = 0 ∧
      T1G φ L S + T2G φ L S *
          ((P1 φ L S * T3G φ L S - P3 φ L S * T1G φ L S) /
            (-P2 φ L S * T3G φ L S + P3 φ L S * T2G φ L S)) +
        T3G φ L S *
          ((P1 φ L S * T2G φ L S - P2 φ L S * T1G φ L S) /
            (-P3 φ L S * T2G φ L S + T3G φ L S * P2 φ L S)) = 0 ∧
      stepA φ (L, S) =
        (0.5 * (L + (P1 φ L S * T2G φ L S - P2 φ L S * T1G φ L S) /
            (-P3 φ L S * T2G φ L S + T3G φ L S * P2 φ L S)),
         0.5 * (S + (P1 φ L S * T3G φ L S - P3 φ L S * T1G φ L S) /
            (-P2 φ L S * T3G φ L S + P3 φ L S * T2G φ L S)))) := by
  constructor
  · rfl
  · intro L S hD
    have hd : P2 φ L S * T3G φ L S - P3 φ L S * T2G φ L S ≠ 0 := by
      intro h; apply hD; linarith
    have e1 : -P3 φ L S * T2G φ L S + T3G φ L S * P2 φ L S =
        P2 φ L S * T3G φ L S - P3 φ L S * T2G φ L S := by ring
    have e2 : -P2 φ L S * T3G φ L S + P3 φ L S * T2G φ L S =
        -(P2 φ L S * T3G φ L S - P3 φ L S * T2G φ L S) := by ring
    refine ⟨?_, ?_, rfl⟩ <;>
      · rw [e1, e2]
        simp only [div_neg]
        field_simp
        ring

/-- Coefficient set with all radiative and latent terms switched off,
used for concrete evaluations of the Variant A solve. -/
def fasstExample : FASSTCoeffs :=
  { sigmaf := 0, Alphaf := 0, Alphag := 0, epsilonf := 1, epsilong := 0, Latm := 0
    RS := 0, sheatf := 1, sheatg := 0, LAI := 0, Rhoaf := 0, Cf := 0, Lef := 0
    Waf := 0, rn := 0, dOne := 1, qa := 0, qsf := 0, dqf := 0, qsg := 0, dqg := 0
    Mg := 0, Qsoilpart1 := 0, Qsoilpart2 := 1, Rhoag := 0, Ce := 0, Leg := 0, Ta := 0 }

/-- C6 witness: the three-iteration characterization at a concrete
coefficient set and estimate with nonzero determinant. -/
theorem calcEcoRoof_three_iterations_witness :
    calcEcoRoofSolve fasstExample 0 0 =
      stepA fasstExample (stepA fasstExample (stepA fasstExample (0, 0))) ∧
    (P1 fasstExample 0 0 + P2 fasstExample 0 0 *
        ((P1 fasstExample 0 0 * T3G fasstExample 0 0 - P3 fasstExample 0 0 * T1G fasstExample 0 0) /
          (-P2 fasstExample 0 0 * T3G fasstExample 0 0 + P3 fasstExample 0 0 * T2G fasstExample 0 0)) +
      P3 fasstExample 0 0 *
        ((P1 fasstExample 0 0 * T2G fasstExample 0 0 - P2 fasstExample 0 0 * T1G fasstExample 0 0) /
          (-P3 fasstExample 0 0 * T2G fasstExample 0 0 + T3G fasstExample 0 0 * P2 fasstExample 0 0)) = 0) := by
  obtain ⟨h1, h2⟩ := calcEcoRoof_three_iterations fasstExample 0 0
  exact ⟨h1, (h2 0 0 (by norm_num [P2, P3, T2G, T3G, fasstExample, EpsilonOneA])).1⟩

/-- Stand-in for std::pow used in concrete evaluations: squaring. -/
def rpowSq : ℚ → ℚ → ℚ := fun x _ => x * x

/-- C9 counterexample: the three regime conditions are not mutually
exclusive.  At roof length 1 m, air 295 K, surface 305 K, wind 2 m/s
(all physically meaningful and positive), the Grashof number lies above
the natural-convection threshold 55.3·pow(Re,5/3) — which the C++ source
evaluates as 55.3·Re because the exponent 5/3 is integer division — and
simultaneously below the forced-convection threshold 0.068·pow(Re,2.2),
so the forced and natural conditions hold at once ("exactly one regime
applies" fails); the function returns the natural-regime value because
that branch assigns last. -/
theorem h_conv_regime_overlap_cex :
    55.3 * ReynoldsQ 1 2 < GrashofQ 1 295 305 ∧
    GrashofQ 1 295 305 < 0.068 * rpowSq (ReynoldsQ 1 2) 2.2 ∧
    h_conv rpowSq 1 295 305 2 0.0267 = some (3 * (0.15 * 1) * 0.0267 / LchaQ 1) := by
  have hb : 55.3 * ReynoldsQ 1 2 < GrashofQ 1 295 305 := by
    simp only [GrashofQ, ReynoldsQ, LchaQ, nu_air]
    rw [abs_of_pos] <;> norm_num
  have ha : GrashofQ 1 295 305 < 0.068 * rpowSq (ReynoldsQ 1 2) 2.2 := by
    simp only [GrashofQ, ReynoldsQ, LchaQ, nu_air, rpowSq]
    rw [abs_of_pos] <;> norm_num
  refine ⟨hb, ha, ?_⟩
  simp only [h_conv]
  rw [if_pos hb]

/-- C9 amended: `h_conv` and `h_conv_bare` return a defined regime
coefficient whenever the Grashof number differs from both branch
thresholds; the conditions are not mutually exclusive, and when the
Grashof number exceeds the natural threshold and is below the forced
threshold simultaneously the natural-regime branch wins (it assigns
last); at exact threshold equality no branch assigns and the result is
undefined (`none`). -/
theorem h_conv_total_off_thresholds (rpow : ℚ → ℚ → ℚ)
    (length Tair_k surf_temp WindSpeed k_air1 : ℚ)
    (h1 : GrashofQ length Tair_k surf_temp ≠
      0.068 * rpow (ReynoldsQ length WindSpeed) 2.2)
    (h2 : GrashofQ length Tair_k surf_temp ≠ 55.3 * ReynoldsQ length WindSpeed) :
    (h_conv rpow length Tair_k surf_temp WindSpeed k_air1).isSome ∧
    (h_conv_bare rpow length Tair_k surf_temp WindSpeed k_air1).isSome ∧
    (55.3 * ReynoldsQ length WindSpeed < GrashofQ length Tair_k surf_temp →
      h_conv rpow length Tair_k surf_temp WindSpeed k_air1 =
        some (3 * (0.15 * 1) * k_air1 / LchaQ length) ∧
      h_conv_bare rpow length Tair_k surf_temp WindSpeed k_air1 =
        some (2.1 * (0.15 * 1) * k_air1 / LchaQ length)) := by
  set Gr := GrashofQ length Tair_k surf_temp with hGrdef
  set Re := ReynoldsQ length WindSpeed with hRedef
  refine ⟨?_, ?_, ?_⟩
  · simp only [h_conv]
    by_cases hb : 55.3 * Re < Gr
    · rw [if_pos hb]; rfl
    · have hblt : Gr < 55.3 * Re := lt_of_le_of_ne (not_lt.mp hb) h2
      rw [if_neg hb]
      by_cases hagt : 0.068 * rpow Re 2.2 < Gr
      · rw [if_pos ⟨hagt, hblt⟩]; rfl
      · have halt : Gr < 0.068 * rpow Re 2.2 := lt_of_le_of_ne (not_lt.mp hagt) h1
        rw [if_neg (fun hc => hagt hc.1), if_pos halt]; rfl
  · simp only [h_conv_bare]
    by_cases hb : 55.3 * Re < Gr
    · rw [if_pos hb]; rfl
    · have hblt : Gr < 55.3 * Re := lt_of_le_of_ne (not_lt.mp hb) h2
      rw [if_neg hb]
      by_cases hagt : 0.068 * rpow Re 2.2 < Gr
      · rw [if_pos ⟨hagt, hblt⟩]; rfl
      · have halt : Gr < 0.068 * rpow Re 2.2 := lt_of_le_of_ne (not_lt.mp hagt) h1
        rw [if_neg (fun hc => hagt hc.1), if_pos halt]; rfl
  · intro hb
    constructor
    · simp only [h_conv]
      rw [if_pos hb]
    · simp only [h_conv_bare]
      rw [if_pos hb]

/-! ## Moisture-bound lemmas for UpdateSoilProps -/

lemma topDepth_pos (c : SoilConfig) (h : 0 < c.SoilThickness) : 0 < TopDepth c := by
  simp only [TopDepth]
  split_ifs <;> linarith

lemma rootDepth_pos (c : SoilConfig) (h : 0 < c.SoilThickness) : 0 < RootDepth c := by
  simp only [RootDepth, TopDepth]
  split_ifs <;> linarith

lemma evapStage_root_le (c : SoilConfig) (Vfluxf Vfluxg : ℚ) (w : MoistWork)
    (hVf : 0 ≤ Vfluxf) (hmpt : 0 ≤ c.MinutesPerTimeStep) (hRoot : 0 < RootDepth c) :
    (evapStage c Vfluxf Vfluxg w).MeanRootMoisture ≤ w.MeanRootMoisture := by
  simp only [evapStage]
  have h : 0 ≤ Vfluxf * c.MinutesPerTimeStep * 60 / RootDepth c := by
    apply div_nonneg _ hRoot.le
    have := mul_nonneg hVf hmpt
    nlinarith
  linarith

lemma midStages_root_eq (c : SoilConfig) (w : MoistWork) :
    (satStage c (capStage c (irrStage c (precipStage c w)))).MeanRootMoisture =
      w.MeanRootMoisture := by
  simp only [satStage, capStage, irrStage, precipStage]
  split_ifs <;> rfl

lemma satStage_moisture_le (c : SoilConfig) (w : MoistWork) :
    (satStage c w).Moisture ≤ c.MoistureMax := by
  simp only [satStage]
  split_ifs with h
  · exact le_refl _
  · exact le_of_not_lt h

lemma gainClamp_le (M mr q f d : ℚ) (hd : 0 < d) (hf0 : 0 ≤ f) (hf1 : f ≤ 1)
    (hmr : mr ≤ M) :
    mr + max 0 (min ((M - mr) * d) q) * f / d ≤ M := by
  have hA0 : 0 ≤ (M - mr) * d := mul_nonneg (by linarith) hd.le
  have h1 : max 0 (min ((M - mr) * d) q) ≤ (M - mr) * d :=
    max_le hA0 (min_le_left _ _)
  have h0 : 0 ≤ max 0 (min ((M - mr) * d) q) := le_max_left _ _
  have h2 : max 0 (min ((M - mr) * d) q) * f ≤ (M - mr) * d := by
    calc max 0 (min ((M - mr) * d) q) * f
        ≤ ((M - mr) * d) * f := mul_le_mul_of_nonneg_right h1 hf0
      _ ≤ ((M - mr) * d) * 1 := mul_le_mul_of_nonneg_left hf1 hA0
      _ = (M - mr) * d := mul_one _
  have h3 : max 0 (min ((M - mr) * d) q) * f / d ≤ M - mr := by
    rw [div_le_iff₀ hd]
    linarith
  linarith

lemma diffStage_bounds (c : SoilConfig) (w : MoistWork)
    (hTop : 0 < TopDepth c) (hRoot : 0 < RootDepth c)
    (hmpt0 : 0 ≤ c.MinutesPerTimeStep) (hmpt : c.MinutesPerTimeStep ≤ 300)
    (hm : w.Moisture ≤ c.MoistureMax) (hmr : w.MeanRootMoisture ≤ c.MoistureMax) :
    (diffStage c w).Moisture ≤ c.MoistureMax ∧
    (diffStage c w).MeanRootMoisture ≤ c.MoistureMax := by
  have hf5a : (0:ℚ) ≤ 0.00005 * c.MinutesPerTimeStep * 60 := by nlinarith
  have hf5b : (0.00005 : ℚ) * c.MinutesPerTimeStep * 60 ≤ 1 := by nlinarith
  have hf1a : (0:ℚ) ≤ 0.00001 * c.MinutesPerTimeStep * 60 := by nlinarith
  have hf1b : (0.00001 : ℚ) * c.MinutesPerTimeStep * 60 ≤ 1 := by nlinarith
  simp only [diffStage]
  split_ifs with h1 h2
  · constructor
    · have hy : 0 ≤ max 0 (min ((c.MoistureMax - w.MeanRootMoisture) * RootDepth c)
          ((w.Moisture - w.MeanRootMoisture) * TopDepth c)) *
          (0.00005 * c.MinutesPerTimeStep * 60) / TopDepth c :=
        div_nonneg (mul_nonneg (le_max_left _ _) hf5a) hTop.le
      dsimp only
      linarith
    · exact gainClamp_le _ _ _ _ _ hRoot hf5a hf5b hmr
  · constructor
    · exact gainClamp_le _ _ _ _ _ hTop hf1a hf1b hm
    · have hy : 0 ≤ max 0 (min ((c.MoistureMax - w.Moisture) * TopDepth c)
          ((w.MeanRootMoisture - w.Moisture) * RootDepth c)) *
          (0.00001 * c.MinutesPerTimeStep * 60) / RootDepth c :=
        div_nonneg (mul_nonneg (le_max_left _ _) hf1a) hRoot.le
      dsimp only
      linarith
  · exact ⟨hm, hmr⟩

lemma doubleClamp_bounds (M r x : ℚ) (hr : 0 < r) (hM : 1.01 * r ≤ M) :
    1.01 * r ≤ (if (if x ≥ M then 0.9999 * M else x) ≤ 1.01 * r then 1.01 * r
      else (if x ≥ M then 0.9999 * M else x)) ∧
    (if (if x ≥ M then 0.9999 * M else x) ≤ 1.01 * r then 1.01 * r
      else (if x ≥ M then 0.9999 * M else x)) ≤ M := by
  have hM0 : 0 < M := by linarith
  split_ifs with h1 h2 h3 <;> constructor <;> linarith

lemma vgStage_bounds (rpow : ℚ → ℚ → ℚ) (c : SoilConfig) (w : MoistWork)
    (hr : 0 < c.MoistureResidual) (hM : 1.01 * c.MoistureResidual ≤ c.MoistureMax) :
    (1.01 * c.MoistureResidual ≤ (vgStage rpow c w).Moisture ∧
      (vgStage rpow c w).Moisture ≤ c.MoistureMax) ∧
    (1.01 * c.MoistureResidual ≤ (vgStage rpow c w).MeanRootMoisture ∧
      (vgStage rpow c w).MeanRootMoisture ≤ c.MoistureMax) := by
  constructor
  · exact doubleClamp_bounds _ _ _ hr hM
  · exact doubleClamp_bounds _ _ _ hr hM

lemma borrowStage_id (c : SoilConfig) (w : MoistWork) (hr : 0 < c.MoistureResidual)
    (h : 1.01 * c.MoistureResidual ≤ w.MeanRootMoisture) : borrowStage c w = w := by
  simp only [borrowStage]
  rw [if_neg]
  intro hc
  linarith

lemma borrowStage_root_lower (c : SoilConfig) (w : MoistWork)
    (hr0 : 0 ≤ c.MoistureResidual) :
    c.MoistureResidual ≤ (borrowStage c w).MeanRootMoisture := by
  by_cases h : w.MeanRootMoisture ≤ c.MoistureResidual * 1.00001
  · simp only [borrowStage, if_pos h]
    linarith
  · simp only [borrowStage, if_neg h]
    linarith [not_le.mp h]

lemma borrowStage_root_upper (c : SoilConfig) (w : MoistWork)
    (hM1 : c.MoistureResidual * 1.00001 ≤ c.MoistureMax)
    (hmr : w.MeanRootMoisture ≤ c.MoistureMax) :
    (borrowStage c w).MeanRootMoisture ≤ c.MoistureMax := by
  by_cases h : w.MeanRootMoisture ≤ c.MoistureResidual * 1.00001
  · simp only [borrowStage, if_pos h]
    linarith
  · simp only [borrowStage, if_neg h]
    exact hmr

lemma borrowStage_moisture_upper (c : SoilConfig) (w : MoistWork)
    (hTop : 0 < TopDepth c) (hRoot : 0 < RootDepth c)
    (hM1 : c.MoistureResidual * 1.00001 ≤ c.MoistureMax)
    (hm : w.Moisture ≤ c.MoistureMax) :
    (borrowStage c w).Moisture ≤ c.MoistureMax := by
  by_cases h : w.MeanRootMoisture ≤ c.MoistureResidual * 1.00001
  · simp only [borrowStage, if_pos h]
    split_ifs with hin
    · linarith
    · have hy : 0 ≤ (c.MoistureResidual * 1.00001 - w.MeanRootMoisture) * RootDepth c /
          TopDepth c :=
        div_nonneg (mul_nonneg (by linarith) hRoot.le) hTop.le
      linarith
  · simp only [borrowStage, if_neg h]
    exact hm

/-- C1 counterexample configuration: calculation method 1, 60-minute
timestep, 0.2 m soil, moisture bounds [0.1, 0.5], no precipitation or
irrigation schedule. -/
def cexCfgDiff : SoilConfig :=
  { MoistureMax := 0.5, MoistureResidual := 0.1, SoilThickness := 0.2
    MinutesPerTimeStep := 60, EcoRoofCalculationMethod := 1
    rainDesign := false, rainAmount := 0, irrDesign := false, irrSmart := false
    irrAmount := 0, irrThreshold := 0 }

/-- C1 counterexample entry state: near-surface moisture at the residual
bound, root zone at the maximum, both within bounds. -/
def cexEntryW : MoistWork :=
  { Moisture := 0.1, MeanRootMoisture := 0.5, CurrentRunoff := 0
    CurrentET := 0, CurrentPrecipitation := 0, CurrentIrrigation := 0 }

/-- Dummy dry-property record for concrete evaluations. -/
def dryZero : DryProps := { DryCond := 1, DryDens := 1, DryAbsorp := 0.5, DrySpecHeat := 1 }

/-- Dummy thermal-property record for concrete evaluations. -/
def propOne : PropState :=
  { Alphag := 1, matConductivity := 1, matDensity := 1, matSpecHeat := 1 }

/-- C1 counterexample: under calculation method 1, an entry state with
both moisture values inside [residual, max], zero plant flux,
soil-surface evaporation rate 1e-6 m/s and no precipitation/irrigation
ends the `UpdateSoilProps` call with near-surface Moisture = 707/12500 =
0.05656, strictly below the residual bound 0.1: the near-surface
reservoir has no lower clamp on this path. -/
theorem moisture_bounds_cex :
    (cexCfgDiff.MoistureResidual ≤ cexEntryW.Moisture ∧
      cexEntryW.Moisture ≤ cexCfgDiff.MoistureMax ∧
      cexCfgDiff.MoistureResidual ≤ cexEntryW.MeanRootMoisture ∧
      cexEntryW.MeanRootMoisture ≤ cexCfgDiff.MoistureMax) ∧
    (UpdateSoilProps (fun x _ => x) (fun x => x) cexCfgDiff dryZero 0 0.000001
        cexEntryW propOne).1.Moisture = 707 / 12500 ∧
    (UpdateSoilProps (fun x _ => x) (fun x => x) cexCfgDiff dryZero 0 0.000001
        cexEntryW propOne).1.Moisture < cexCfgDiff.MoistureResidual := by
  refine ⟨by norm_num [cexCfgDiff, cexEntryW], ?_, ?_⟩ <;>
    norm_num [UpdateSoilProps, updateMoisture, evapStage, precipStage, irrStage,
      capStage, satStage, diffStage, borrowStage, TopDepth, RootDepth,
      cexCfgDiff, cexEntryW]

/-- C1 amended: at the end of every `UpdateSoilProps` call (assuming a
positive soil thickness, 0 < residual, 1.01·residual ≤ max, a timestep
between 0 and 300 minutes, nonnegative plant flux, and a root-zone entry
value at most max), the Van Genuchten variant (method not 1) leaves both
reservoirs within [residual, max]; the diffusion variant (method 1)
leaves the root-zone moisture within [residual, max] and the near-surface
moisture at most max — but the near-surface moisture may end below the
residual bound (see the counterexample). -/
theorem updateSoilProps_moisture_bounds (rpow : ℚ → ℚ → ℚ) (expQ : ℚ → ℚ)
    (c : SoilConfig) (d : DryProps) (Vfluxf Vfluxg : ℚ) (w : MoistWork) (p : PropState)
    (hST : 0 < c.SoilThickness) (hr : 0 < c.MoistureResidual)
    (hM : 1.01 * c.MoistureResidual ≤ c.MoistureMax)
    (hmpt0 : 0 ≤ c.MinutesPerTimeStep) (hmpt : c.MinutesPerTimeStep ≤ 300)
    (hVf : 0 ≤ Vfluxf) (hwr : w.MeanRootMoisture ≤ c.MoistureMax) :
    (c.EcoRoofCalculationMethod ≠ 1 →
      c.MoistureResidual ≤ (UpdateSoilProps rpow expQ c d Vfluxf Vfluxg w p).1.Moisture ∧
      (UpdateSoilProps rpow expQ c d Vfluxf Vfluxg w p).1.Moisture ≤ c.MoistureMax ∧
      c.MoistureResidual ≤
        (UpdateSoilProps rpow expQ c d Vfluxf Vfluxg w p).1.MeanRootMoisture ∧
      (UpdateSoilProps rpow expQ c d Vfluxf Vfluxg w p).1.MeanRootMoisture ≤
        c.MoistureMax) ∧
    (c.EcoRoofCalculationMethod = 1 →
      c.MoistureResidual ≤
        (UpdateSoilProps rpow expQ c d Vfluxf Vfluxg w p).1.MeanRootMoisture ∧
      (UpdateSoilProps rpow expQ c d Vfluxf Vfluxg w p).1.MeanRootMoisture ≤
        c.MoistureMax ∧
      (UpdateSoilProps rpow expQ c d Vfluxf Vfluxg w p).1.Moisture ≤ c.MoistureMax) := by
  have hTop := topDepth_pos c hST
  have hRoot := rootDepth_pos c hST
  have hM1 : c.MoistureResidual * 1.00001 ≤ c.MoistureMax := by linarith
  have hpre : (UpdateSoilProps rpow expQ c d Vfluxf Vfluxg w p).1 =
      borrowStage c (if c.EcoRoofCalculationMethod = 1 then
        diffStage c (satStage c (capStage c (irrStage c (precipStage c
          (evapStage c Vfluxf Vfluxg w)))))
      else vgStage rpow c (satStage c (capStage c (irrStage c (precipStage c
        (evapStage c Vfluxf Vfluxg w)))))) := rfl
  set w5 := satStage c (capStage c (irrStage c (precipStage c
    (evapStage c Vfluxf Vfluxg w)))) with hw5
  have hw5m : w5.Moisture ≤ c.MoistureMax := satStage_moisture_le _ _
  have hw5r : w5.MeanRootMoisture ≤ c.MoistureMax := by
    rw [hw5, midStages_root_eq]
    exact le_trans (evapStage_root_le c Vfluxf Vfluxg w hVf hmpt0 hRoot) hwr
  constructor
  · intro hne
    rw [hpre, if_neg hne]
    obtain ⟨⟨hm1, hm2⟩, hr1, hr2⟩ := vgStage_bounds rpow c w5 hr hM
    rw [borrowStage_id c _ hr hr1]
    exact ⟨by linarith, hm2, by linarith, hr2⟩
  · intro heq
    rw [hpre, if_pos heq]
    obtain ⟨hdm, hdr⟩ := diffStage_bounds c w5 hTop hRoot hmpt0 hmpt hw5m hw5r
    exact ⟨borrowStage_root_lower c _ hr.le,
      borrowStage_root_upper c _ hM1 hdr,
      borrowStage_moisture_upper c _ hTop hRoot hM1 hdm⟩

/-- C1 witness: the amended bounds at a concrete Van Genuchten call. -/
theorem updateSoilProps_moisture_bounds_witness :
    let c2 : SoilConfig := { cexCfgDiff with EcoRoofCalculationMethod := 2 }
    (c2.EcoRoofCalculationMethod ≠ 1 →
      c2.MoistureResidual ≤
        (UpdateSoilProps (fun x _ => x) (fun x => x) c2 dryZero 0 0.000001
          cexEntryW propOne).1.Moisture ∧
      (UpdateSoilProps (fun x _ => x) (fun x => x) c2 dryZero 0 0.000001
          cexEntryW propOne).1.Moisture ≤ c2.MoistureMax ∧
      c2.MoistureResidual ≤
        (UpdateSoilProps (fun x _ => x) (fun x => x) c2 dryZero 0 0.000001
          cexEntryW propOne).1.MeanRootMoisture ∧
      (UpdateSoilProps (fun x _ => x) (fun x => x) c2 dryZero 0 0.000001
          cexEntryW propOne).1.MeanRootMoisture ≤ c2.MoistureMax) ∧
    (c2.EcoRoofCalculationMethod = 1 →
      c2.MoistureResidual ≤
        (UpdateSoilProps (fun x _ => x) (fun x => x) c2 dryZero 0 0.000001
          cexEntryW propOne).1.MeanRootMoisture ∧
      (UpdateSoilProps (fun x _ => x) (fun x => x) c2 dryZero 0 0.000001
          cexEntryW propOne).1.MeanRootMoisture ≤ c2.MoistureMax ∧
      (UpdateSoilProps (fun x _ => x) (fun x => x) c2 dryZero 0 0.000001
          cexEntryW propOne).1.Moisture ≤ c2.MoistureMax) := by
  exact updateSoilProps_moisture_bounds (fun x _ => x) (fun x => x) _ dryZero 0 0.000001
    cexEntryW propOne (by norm_num [cexCfgDiff]) (by norm_num [cexCfgDiff])
    (by norm_num [cexCfgDiff]) (by norm_num [cexCfgDiff]) (by norm_num [cexCfgDiff])
    (by norm_num) (by norm_num [cexCfgDiff, cexEntryW])

/-! ## Water mass balance for UpdateSoilProps -/

/-- Water footprint of a moisture state: runoff plus stored water depth
minus the supplied depth plus the extracted depth.  The moisture phase of
method 1 conserves it. -/
def waterFootprint (c : SoilConfig) (w : MoistWork) : ℚ :=
  w.CurrentRunoff + w.Moisture * TopDepth c + w.MeanRootMoisture * RootDepth c -
    w.CurrentPrecipitation - w.CurrentIrrigation + w.CurrentET

lemma inputStages_footprint (c : SoilConfig) (Vfluxf Vfluxg : ℚ) (w : MoistWork)
    (hTop : TopDepth c ≠ 0) (hRoot : RootDepth c ≠ 0) :
    waterFootprint c (capStage c (irrStage c (precipStage c
        (evapStage c Vfluxf Vfluxg w)))) =
      w.Moisture * TopDepth c + w.MeanRootMoisture * RootDepth c := by
  simp only [waterFootprint, capStage, irrStage, precipStage, evapStage]
  split_ifs <;> field_simp <;> ring

lemma satStage_footprint (c : SoilConfig) (w : MoistWork) :
    waterFootprint c (satStage c w) = waterFootprint c w := by
  simp only [waterFootprint, satStage]
  split_ifs <;> ring

lemma diffStage_footprint (c : SoilConfig) (w : MoistWork)
    (hTop : TopDepth c ≠ 0) (hRoot : RootDepth c ≠ 0) :
    waterFootprint c (diffStage c w) = waterFootprint c w := by
  simp only [waterFootprint, diffStage]
  split_ifs <;> field_simp <;> ring

lemma borrowStage_footprint (c : SoilConfig) (w : MoistWork)
    (hTop : TopDepth c ≠ 0)
    (hnc : w.MeanRootMoisture ≤ c.MoistureResidual * 1.00001 →
      ¬ (w.Moisture - (c.MoistureResidual * 1.00001 - w.MeanRootMoisture) *
          RootDepth c / TopDepth c < c.MoistureResidual * 1.00001)) :
    waterFootprint c (borrowStage c w) = waterFootprint c w := by
  by_cases h : w.MeanRootMoisture ≤ c.MoistureResidual * 1.00001
  · simp only [waterFootprint, borrowStage, if_pos h, if_neg (hnc h)]
    field_simp
    ring
  · simp only [borrowStage, if_neg h]

/-- C5 amended: for calculation method 1, whenever the final residual
borrow does not hit its inner near-surface clamp, the single-timestep
water balance holds exactly:
CurrentRunoff + ΔMoisture·TopDepth + ΔMeanRootMoisture·RootDepth =
CurrentPrecipitation + CurrentIrrigation − CurrentET.  (For method 2 the
balance fails even with every clamp inactive; see the counterexample.) -/
theorem updateSoilProps_mass_balance (rpow : ℚ → ℚ → ℚ) (expQ : ℚ → ℚ)
    (c : SoilConfig) (d : DryProps) (Vfluxf Vfluxg : ℚ) (w : MoistWork) (p : PropState)
    (hmeth : c.EcoRoofCalculationMethod = 1)
    (hTop : TopDepth c ≠ 0) (hRoot : RootDepth c ≠ 0)
    (hnc : (diffStage c (satStage c (capStage c (irrStage c (precipStage c
        (evapStage c Vfluxf Vfluxg w)))))).MeanRootMoisture ≤
        c.MoistureResidual * 1.00001 →
      ¬ ((diffStage c (satStage c (capStage c (irrStage c (precipStage c
          (evapStage c Vfluxf Vfluxg w)))))).Moisture -
         (c.MoistureResidual * 1.00001 -
          (diffStage c (satStage c (capStage c (irrStage c (precipStage c
            (evapStage c Vfluxf Vfluxg w)))))).MeanRootMoisture) *
          RootDepth c / TopDepth c < c.MoistureResidual * 1.00001)) :
    (UpdateSoilProps rpow expQ c d Vfluxf Vfluxg w p).1.CurrentRunoff +
      ((UpdateSoilProps rpow expQ c d Vfluxf Vfluxg w p).1.Moisture - w.Moisture) *
        TopDepth c +
      ((UpdateSoilProps rpow expQ c d Vfluxf Vfluxg w p).1.MeanRootMoisture -
        w.MeanRootMoisture) * RootDepth c =
    (UpdateSoilProps rpow expQ c d Vfluxf Vfluxg w p).1.CurrentPrecipitation +
      (UpdateSoilProps rpow expQ c d Vfluxf Vfluxg w p).1.CurrentIrrigation -
      (UpdateSoilProps rpow expQ c d Vfluxf Vfluxg w p).1.CurrentET := by
  have hpre : (UpdateSoilProps rpow expQ c d Vfluxf Vfluxg w p).1 =
      borrowStage c (diffStage c (satStage c (capStage c (irrStage c (precipStage c
        (evapStage c Vfluxf Vfluxg w)))))) := by
    show (updateMoisture rpow c Vfluxf Vfluxg w) = _
    simp only [updateMoisture, hmeth, if_pos]
  have hfp : waterFootprint c ((UpdateSoilProps rpow expQ c d Vfluxf Vfluxg w p).1) =
      w.Moisture * TopDepth c + w.MeanRootMoisture * RootDepth c := by
    rw [hpre, borrowStage_footprint c _ hTop hnc, diffStage_footprint c _ hTop hRoot,
      satStage_footprint, inputStages_footprint c Vfluxf Vfluxg w hTop hRoot]
  simp only [waterFootprint] at hfp
  linarith

/-- Entry state for the method-2 mass-balance counterexample: moisture
0.3 and 0.2 inside the bounds, everything else zero. -/
def cexBalW : MoistWork :=
  { Moisture := 0.3, MeanRootMoisture := 0.2, CurrentRunoff := 0
    CurrentET := 0, CurrentPrecipitation := 0, CurrentIrrigation := 0 }

/-- Configuration for the method-2 mass-balance counterexample: same as
`cexCfgDiff` but with calculation method 2. -/
def cexCfgVG : SoilConfig := { cexCfgDiff with EcoRoofCalculationMethod := 2 }

/-- Stand-in for std::pow used in the method-2 counterexample: returns
the base (a positive value for positive bases, as the true power is). -/
def rpowBase : ℚ → ℚ → ℚ := fun x _ => x

/-- C5 counterexample: under calculation method 2 (Van Genuchten), with
zero fluxes, zero precipitation and irrigation, the call ends with
CurrentRunoff + ΔMoisture·TopDepth + ΔMeanRootMoisture·RootDepth =
139239/515200000 (about 2.7e-4 m), while Precipitation + Irrigation −
Evapotranspiration = 0: the redistribution law itself is not
conservative.  No clamp is active on this run: both final reservoir
values lie strictly inside (1.01·residual, 0.9999·max). -/
theorem mass_balance_cex :
    ((UpdateSoilProps rpowBase (fun x => x) cexCfgVG dryZero 0 0 cexBalW propOne).1.CurrentRunoff +
      ((UpdateSoilProps rpowBase (fun x => x) cexCfgVG dryZero 0 0 cexBalW propOne).1.Moisture -
        cexBalW.Moisture) * TopDepth cexCfgVG +
      ((UpdateSoilProps rpowBase (fun x => x) cexCfgVG dryZero 0 0 cexBalW propOne).1.MeanRootMoisture -
        cexBalW.MeanRootMoisture) * RootDepth cexCfgVG =
      139239 / 515200000) ∧
    ((UpdateSoilProps rpowBase (fun x => x) cexCfgVG dryZero 0 0 cexBalW propOne).1.CurrentPrecipitation +
      (UpdateSoilProps rpowBase (fun x => x) cexCfgVG dryZero 0 0 cexBalW propOne).1.CurrentIrrigation -
      (UpdateSoilProps rpowBase (fun x => x) cexCfgVG dryZero 0 0 cexBalW propOne).1.CurrentET = 0) ∧
    (1.01 * cexCfgVG.MoistureResidual <
      (UpdateSoilProps rpowBase (fun x => x) cexCfgVG dryZero 0 0 cexBalW propOne).1.Moisture ∧
      (UpdateSoilProps rpowBase (fun x => x) cexCfgVG dryZero 0 0 cexBalW propOne).1.Moisture <
        0.9999 * cexCfgVG.MoistureMax) ∧
    (1.01 * cexCfgVG.MoistureResidual <
      (UpdateSoilProps rpowBase (fun x => x) cexCfgVG dryZero 0 0 cexBalW propOne).1.MeanRootMoisture ∧
      (UpdateSoilProps rpowBase (fun x => x) cexCfgVG dryZero 0 0 cexBalW propOne).1.MeanRootMoisture <
        0.9999 * cexCfgVG.MoistureMax) := by
  refine ⟨?_, ?_, ⟨?_, ?_⟩, ⟨?_, ?_⟩⟩ <;>
    norm_num [UpdateSoilProps, updateMoisture, evapStage, precipStage, irrStage,
      capStage, satStage, vgStage, borrowStage, vgConductivity, vgCapillaryPotential,
      SecondsPerTimeStep, TopDepth, RootDepth, alphaVG, nVG, lambdaVG,
      SoilConductivitySaturation, rpowBase, cexCfgVG, cexCfgDiff, cexBalW]

/-- C5 witness: the exact balance at a concrete method-1 call with no
precipitation, no irrigation, zero fluxes, and the borrow clamp idle. -/
theorem updateSoilProps_mass_balance_witness :
    (UpdateSoilProps rpowBase (fun x => x) cexCfgDiff dryZero 0 0 cexBalW propOne).1.CurrentRunoff +
      ((UpdateSoilProps rpowBase (fun x => x) cexCfgDiff dryZero 0 0 cexBalW propOne).1.Moisture -
        cexBalW.Moisture) * TopDepth cexCfgDiff +
      ((UpdateSoilProps rpowBase (fun x => x) cexCfgDiff dryZero 0 0 cexBalW propOne).1.MeanRootMoisture -
        cexBalW.MeanRootMoisture) * RootDepth cexCfgDiff =
    (UpdateSoilProps rpowBase (fun x => x) cexCfgDiff dryZero 0 0 cexBalW propOne).1.CurrentPrecipitation +
      (UpdateSoilProps rpowBase (fun x => x) cexCfgDiff dryZero 0 0 cexBalW propOne).1.CurrentIrrigation -
      (UpdateSoilProps rpowBase (fun x => x) cexCfgDiff dryZero 0 0 cexBalW propOne).1.CurrentET := by
  apply updateSoilProps_mass_balance rpowBase (fun x => x) cexCfgDiff dryZero 0 0 cexBalW
    propOne (by norm_num [cexCfgDiff]) (by norm_num [TopDepth, cexCfgDiff])
    (by norm_num [RootDepth, TopDepth, cexCfgDiff])
  intro h
  exfalso
  revert h
  norm_num [diffStage, satStage, capStage, irrStage, precipStage, evapStage,
    TopDepth, RootDepth, cexCfgDiff, cexBalW]

/-! ## Termination and tolerance of the Variant B scalar solve -/

lemma bisectRun_tol (F : ℚ → ℚ) (tol : ℚ) :
    ∀ (n : ℕ) (s : BisectState) (a b : ℚ),
      bisectRun F tol n s = some (a, b) → |a - b| ≤ tol := by
  intro n
  induction n with
  | zero =>
    intro s a b h
    simp only [bisectRun] at h
    exact Option.noConfusion h
  | succ k ih =>
    intro s a b h
    simp only [bisectRun] at h
    by_cases hx : |(bisectBody F s).Tpnew - (bisectBody F s).MidPoint| ≤ tol
    · rw [if_pos hx] at h
      simp only [Option.some.injEq, Prod.mk.injEq] at h
      obtain ⟨ha, hb⟩ := h
      rw [← ha, ← hb]
      exact hx
    · rw [if_neg hx] at h
      exact ih _ _ _ h

lemma bisectBody_steady_exit (F : ℚ → ℚ) (tol : ℚ) (htol : 0 < tol) (s : BisectState)
    (hst : s.Tpnew = s.MidPoint)
    (hms : max |s.Sol1 - s.MidPoint| |s.Sol2 - s.MidPoint| ≤ tol * 2) :
    |(bisectBody F s).Tpnew - (bisectBody F s).MidPoint| ≤ tol := by
  have hm1 : |s.Sol1 - s.MidPoint| ≤ tol * 2 := le_trans (le_max_left _ _) hms
  have hm2 : |s.Sol2 - s.MidPoint| ≤ tol * 2 := le_trans (le_max_right _ _) hms
  simp only [bisectBody]
  split_ifs with h1 h2
  · have e : (0.5 : ℚ) * (s.MidPoint + s.Sol1) - s.MidPoint =
        0.5 * (s.Sol1 - s.MidPoint) := by ring
    rw [e, abs_mul, abs_of_pos (by norm_num : (0:ℚ) < 0.5)]
    linarith
  · have e : (0.5 : ℚ) * (s.MidPoint + s.Sol2) - s.MidPoint =
        0.5 * (s.Sol2 - s.MidPoint) := by ring
    rw [e, abs_mul, abs_of_pos (by norm_num : (0:ℚ) < 0.5)]
    linarith
  · rw [hst]
    simp
    linarith

lemma bisectRun_steady_total (F : ℚ → ℚ) (tol : ℚ) (htol : 0 < tol) :
    ∀ (k : ℕ) (s : BisectState), s.Tpnew = s.MidPoint →
      max |s.Sol1 - s.MidPoint| |s.Sol2 - s.MidPoint| ≤ tol * 2 ^ k →
      (bisectRun F tol (k + 1) s).isSome := by
  intro k
  induction k with
  | zero =>
    intro s hst hms
    have hx := bisectBody_steady_exit F tol htol s hst
      (by rw [pow_zero, mul_one] at hms; linarith)
    simp only [bisectRun, if_pos hx, Option.isSome_some]
  | succ k ih =>
    intro s hst hms
    by_cases hx : |(bisectBody F s).Tpnew - (bisectBody F s).MidPoint| ≤ tol
    · simp only [bisectRun, if_pos hx, Option.isSome_some]
    · simp only [bisectRun, if_neg hx]
      apply ih
      · rfl
      · have hm1 : |s.Sol1 - s.MidPoint| ≤ tol * 2 ^ (k + 1) :=
          le_trans (le_max_left _ _) hms
        have hm2 : |s.Sol2 - s.MidPoint| ≤ tol * 2 ^ (k + 1) :=
          le_trans (le_max_right _ _) hms
        simp only [bisectBody] at hx ⊢
        split_ifs with h1 h2
        · have e1 : s.Sol1 - 0.5 * (s.MidPoint + s.Sol1) =
              0.5 * (s.Sol1 - s.MidPoint) := by ring
          have e2 : s.MidPoint - 0.5 * (s.MidPoint + s.Sol1) =
              -(0.5 * (s.Sol1 - s.MidPoint)) := by ring
          rw [e1, e2, abs_neg, max_self, abs_mul,
            abs_of_pos (by norm_num : (0:ℚ) < 0.5)]
          rw [pow_succ] at hm1
          linarith
        · have e1 : s.MidPoint - 0.5 * (s.MidPoint + s.Sol2) =
              -(0.5 * (s.Sol2 - s.MidPoint)) := by ring
          have e2 : s.Sol2 - 0.5 * (s.MidPoint + s.Sol2) =
              0.5 * (s.Sol2 - s.MidPoint) := by ring
          rw [e1, e2, abs_neg, max_self, abs_mul,
            abs_of_pos (by norm_num : (0:ℚ) < 0.5)]
          rw [pow_succ] at hm2
          linarith
        · exfalso
          apply hx
          rw [if_neg h1, if_neg h2, hst]
          simp
          linarith

lemma bisectRun_total (F : ℚ → ℚ) (tol : ℚ) (htol : 0 < tol) (s : BisectState) :
    ∃ n, (bisectRun F tol n s).isSome := by
  by_cases hx : |(bisectBody F s).Tpnew - (bisectBody F s).MidPoint| ≤ tol
  · exact ⟨1, by simp only [bisectRun, if_pos hx, Option.isSome_some]⟩
  · obtain ⟨k, hk⟩ : ∃ k : ℕ,
        max |({ bisectBody F s with MidPoint := (bisectBody F s).Tpnew } :
            BisectState).Sol1 -
          ({ bisectBody F s with MidPoint := (bisectBody F s).Tpnew } :
            BisectState).MidPoint|
        |({ bisectBody F s with MidPoint := (bisectBody F s).Tpnew } :
            BisectState).Sol2 -
          ({ bisectBody F s with MidPoint := (bisectBody F s).Tpnew } :
            BisectState).MidPoint| ≤ tol * 2 ^ k := by
      obtain ⟨k, hk⟩ := pow_unbounded_of_one_lt
        (max |({ bisectBody F s with MidPoint := (bisectBody F s).Tpnew } :
            BisectState).Sol1 -
          ({ bisectBody F s with MidPoint := (bisectBody F s).Tpnew } :
            BisectState).MidPoint|
        |({ bisectBody F s with MidPoint := (bisectBody F s).Tpnew } :
            BisectState).Sol2 -
          ({ bisectBody F s with MidPoint := (bisectBody F s).Tpnew } :
            BisectState).MidPoint| / tol) (by norm_num : (1:ℚ) < 2)
      refine ⟨k, ?_⟩
      rw [div_lt_iff₀ htol] at hk
      nlinarith [pow_pos (by norm_num : (0:ℚ) < 2) k]
    refine ⟨k + 2, ?_⟩
    simp only [bisectRun, if_neg hx]
    exact bisectRun_steady_total F tol htol k _ rfl hk

lemma nrAux_total (F step : ℚ → ℚ) (tol : ℚ) (htol : 0 < tol) :
    ∀ (fuel : ℕ) (tprev told : ℚ), ∃ (n : ℕ) (out : NROut),
      nrAux F step tol n fuel tprev told = some out := by
  intro fuel
  induction fuel with
  | zero =>
    intro tprev told
    by_cases hsc : (F told < 0 ∧ F tprev > 0) ∨ (F told > 0 ∧ F tprev < 0)
    · obtain ⟨n, hn⟩ := bisectRun_total F tol htol
        ⟨told, tprev, F told, F tprev, 0.5 * (told + tprev), step told⟩
      obtain ⟨p, hp⟩ := Option.isSome_iff_exists.mp hn
      exact ⟨n, NROut.bisect p.1 p.2, by simp only [nrAux, if_pos hsc, hp, Option.map_some']⟩
    · exact ⟨0, NROut.accept (step told), by simp only [nrAux, if_neg hsc]⟩
  | succ k ih =>
    intro tprev told
    by_cases hc : |step told - told| ≤ tol
    · exact ⟨0, NROut.newton (step told) told, by simp only [nrAux, if_pos hc]⟩
    · obtain ⟨n, out, hn⟩ := ih told (step told)
      exact ⟨n, out, by simp only [nrAux, if_neg hc]; exact hn⟩

lemma nrAux_tol (F step : ℚ → ℚ) (tol : ℚ) (bfuel : ℕ) :
    ∀ (fuel : ℕ) (tprev told : ℚ) (out : NROut),
      nrAux F step tol bfuel fuel tprev told = some out →
      (∀ a b, out = NROut.newton a b → |a - b| ≤ tol) ∧
      (∀ a b, out = NROut.bisect a b → |a - b| ≤ tol) := by
  intro fuel
  induction fuel with
  | zero =>
    intro tprev told out h
    simp only [nrAux] at h
    by_cases hsc : (F told < 0 ∧ F tprev > 0) ∨ (F told > 0 ∧ F tprev < 0)
    · rw [if_pos hsc] at h
      obtain ⟨p, hp, hout⟩ := Option.map_eq_some'.mp h
      constructor
      · intro a b hab
        rw [← hout] at hab
        exact absurd hab (by simp)
      · intro a b hab
        rw [← hout] at hab
        simp only [NROut.bisect.injEq] at hab
        obtain ⟨ha, hb⟩ := hab
        rw [← ha, ← hb]
        exact bisectRun_tol F tol bfuel _ _ _ (by rw [hp])
    · rw [if_neg hsc] at h
      simp only [Option.some.injEq] at h
      constructor
      · intro a b hab
        rw [← h] at hab
        exact absurd hab (by simp)
      · intro a b hab
        rw [← h] at hab
        exact absurd hab (by simp)
  | succ k ih =>
    intro tprev told out h
    simp only [nrAux] at h
    by_cases hc : |step told - told| ≤ tol
    · rw [if_pos hc] at h
      simp only [Option.some.injEq] at h
      constructor
      · intro a b hab
        rw [← h] at hab
        simp only [NROut.newton.injEq] at hab
        obtain ⟨ha, hb⟩ := hab
        rw [← ha, ← hb]
        exact hc
      · intro a b hab
        rw [← h] at hab
        exact absurd hab (by simp)
    · rw [if_neg hc] at h
      exact ih _ _ _ h

/-- C2: each of the three Variant B scalar temperature root-finds (they
share this skeleton, with their respective balance function F and
derivative Fp) always produces a result: Newton iteration stops when
successive estimates differ by at most 1e-4; reaching the 100-iteration
mark with a sign change between the two most recent function values
switches to bisection, which terminates (some fuel n suffices) with the
exiting pair within 1e-4 of each other; without a sign change the last
Newton estimate is accepted.  In no case is the result `none`. -/
theorem greenRoofRootFind_terminates (F Fp : ℚ → ℚ) (Tinit : ℚ) :
    ∃ (n : ℕ) (out : NROut), variantBRootFind F Fp Tinit n = some out ∧
      (∀ a b, out = NROut.newton a b → |a - b| ≤ 0.0001) ∧
      (∀ a b, out = NROut.bisect a b → |a - b| ≤ 0.0001) := by
  obtain ⟨n, out, h⟩ := nrAux_total F (newtonStep F Fp) 0.0001 (by norm_num) 99 Tinit Tinit
  exact ⟨n, out, h, nrAux_tol F (newtonStep F Fp) 0.0001 n 99 Tinit Tinit out h⟩

/-- C2 witness: the solve at F(t) = t, derivative 1, start 0 (Newton
converges immediately). -/
theorem greenRoofRootFind_terminates_witness :
    ∃ (n : ℕ) (out : NROut),
      variantBRootFind (fun t => t) (fun _ => 1) 0 n = some out ∧
      (∀ a b, out = NROut.newton a b → |a - b| ≤ 0.0001) ∧
      (∀ a b, out = NROut.bisect a b → |a - b| ≤ 0.0001) :=
  greenRoofRootFind_terminates (fun t => t) (fun _ => 1) 0

/-- C9 witness: the amended totality at the concrete inputs of the
counterexample (whose Grashof number differs from both thresholds). -/
theorem h_conv_total_off_thresholds_witness :
    (h_conv rpowSq 1 295 305 2 0.0267).isSome ∧
    (h_conv_bare rpowSq 1 295 305 2 0.0267).isSome ∧
    (55.3 * ReynoldsQ 1 2 < GrashofQ 1 295 305 →
      h_conv rpowSq 1 295 305 2 0.0267 = some (3 * (0.15 * 1) * 0.0267 / LchaQ 1) ∧
      h_conv_bare rpowSq 1 295 305 2 0.0267 =
        some (2.1 * (0.15 * 1) * 0.0267 / LchaQ 1)) := by
  apply h_conv_total_off_thresholds rpowSq 1 295 305 2 0.0267
  · have ha : GrashofQ 1 295 305 < 0.068 * rpowSq (ReynoldsQ 1 2) 2.2 := by
      simp only [GrashofQ, ReynoldsQ, LchaQ, nu_air, rpowSq]
      rw [abs_of_pos] <;> norm_num
    exact ne_of_lt ha
  · have hb : 55.3 * ReynoldsQ 1 2 < GrashofQ 1 295 305 := by
      simp only [GrashofQ, ReynoldsQ, LchaQ, nu_air]
      rw [abs_of_pos] <;> norm_num
    exact ne_of_gt hb

end EcoRoof
